import Mathlib

/-!
Verification development for the Spendbit statement-to-transaction pipeline.

The TypeScript sources are shallowly embedded in Lean:
* JS numbers that hold monetary values are modelled as `ℚ` (the values the
  claims exercise are small decimal fractions on which JS float arithmetic
  agrees with exact rational arithmetic);
* JS `Date` values are modelled by their time value (milliseconds since the
  epoch, an `Int`); `new Date(y, m, d)` is modelled by proleptic-Gregorian
  civil-date arithmetic (in UTC);
* strings are ASCII-compatible Lean `String`s; the handful of JS string and
  regex operations the sources use are re-implemented below with JS
  semantics;
* non-deterministic runtime inputs (`Math.random`-based id generation,
  `new Date()` wall-clock reads, and the engine-specific `new Date(string)`
  fallback parser) are collected in an explicit environment `JSEnv`.
-/

namespace Spendbit

/-- Lower-case an ASCII letter, leave every other character unchanged
(the behaviour of `String.prototype.toLowerCase` on the ASCII inputs the
pipeline handles). -/
def jsToLowerChar (c : Char) : Char :=
  if 'A' ≤ c ∧ c ≤ 'Z' then Char.ofNat (c.toNat + 32) else c

/-- JS `s.toLowerCase()` on ASCII text. -/
def jsToLower (s : String) : String := String.map jsToLowerChar s

/-- Characters matched by the JS regex class `\s` (for the ASCII range). -/
def isWs (c : Char) : Bool :=
  c = ' ' ∨ c = '\t' ∨ c = '\n' ∨ c = '\r' ∨ c = Char.ofNat 11 ∨ c = Char.ofNat 12

/-- Digit test, JS regex class `\d`. -/
def isDigitChar (c : Char) : Bool := '0' ≤ c ∧ c ≤ '9'

/-- Characters matched by the JS regex class `\w` (word characters). -/
def isWordChar (c : Char) : Bool :=
  ('a' ≤ c ∧ c ≤ 'z') ∨ ('A' ≤ c ∧ c ≤ 'Z') ∨ ('0' ≤ c ∧ c ≤ '9') ∨ c = '_'

/-- Decide whether `needle` occurs as a contiguous sublist of `hay`. -/
def listHasSub (needle : List Char) : List Char → Bool
  | [] => needle.isEmpty
  | b :: bs => needle.isPrefixOf (b :: bs) || listHasSub needle bs

/-- JS `s.includes(sub)`. -/
def jsIncludes (s sub : String) : Bool := listHasSub sub.toList s.toList

/-- JS `s.trim()` (strips `\s` from both ends). -/
def jsTrim (s : String) : String :=
  String.mk (((s.toList.dropWhile (fun c => isWs c)).reverse.dropWhile
    (fun c => isWs c)).reverse)

/-- Core of `replace(/\s+/g, ' ')`: the flag records whether the previous
character belonged to a whitespace run that has already emitted its space. -/
def collapseWsAux : Bool → List Char → List Char
  | _, [] => []
  | prevWs, c :: cs =>
    if isWs c then
      if prevWs then collapseWsAux true cs else ' ' :: collapseWsAux true cs
    else c :: collapseWsAux false cs

/-- JS `s.replace(/\s+/g, ' ')`. -/
def collapseWs (s : String) : String := String.mk (collapseWsAux false s.toList)

/-- Core of `split(/\s+/)`; `acc` is the reversed current segment and the flag
records whether we are inside a whitespace run. -/
def wsSplitAux : List Char → Bool → List Char → List String
  | acc, _, [] => [String.mk acc.reverse]
  | acc, inWs, c :: cs =>
    if isWs c then
      if inWs then wsSplitAux acc true cs
      else String.mk acc.reverse :: wsSplitAux [] true cs
    else wsSplitAux (c :: acc) false cs

/-- JS `s.split(/\s+/)` (note: a leading or trailing whitespace run produces
an empty segment, exactly as in JS). -/
def jsSplitWs (s : String) : List String := wsSplitAux [] false s.toList

/-- Test whether the first character of the list is `\s` whitespace. -/
def headIsWs : List Char → Bool
  | c :: _ => isWs c
  | [] => false

/-- Digit list to natural number. -/
def digitsToNat (l : List Char) : Nat :=
  l.foldl (fun a c => a * 10 + (c.toNat - 48)) 0

/-- JS `parseFloat`: skip leading whitespace, optional sign, a decimal
mantissa (digits, optionally with a fractional part), an optional exponent;
trailing garbage is ignored; `none` models `NaN`. -/
def jsParseFloat (s : String) : Option ℚ :=
  let l := s.toList.dropWhile (fun c => isWs c)
  let (sgn, l) :=
    match l with
    | '-' :: rest => ((-1 : ℚ), rest)
    | '+' :: rest => ((1 : ℚ), rest)
    | _ => ((1 : ℚ), l)
  let intDigits := l.takeWhile (fun c => isDigitChar c)
  let l := l.dropWhile (fun c => isDigitChar c)
  let (fracDigits, l) :=
    match l with
    | '.' :: rest => (rest.takeWhile (fun c => isDigitChar c),
                      rest.dropWhile (fun c => isDigitChar c))
    | _ => ([], l)
  if intDigits.isEmpty ∧ fracDigits.isEmpty then none
  else
    let mantissa : ℚ :=
      (digitsToNat intDigits : ℚ) +
        (digitsToNat fracDigits : ℚ) / ((10 : ℚ) ^ fracDigits.length)
    let expPart : Int :=
      match l with
      | 'e' :: rest | 'E' :: rest =>
        let (esgn, rest) :=
          match rest with
          | '-' :: r => ((-1 : Int), r)
          | '+' :: r => ((1 : Int), r)
          | _ => ((1 : Int), rest)
        let eDigits := rest.takeWhile (fun c => isDigitChar c)
        if eDigits.isEmpty then 0 else esgn * (digitsToNat eDigits : Int)
      | _ => 0
    let scaled :=
      if 0 ≤ expPart then mantissa * (10 : ℚ) ^ expPart.toNat
      else mantissa / (10 : ℚ) ^ (-expPart).toNat
    some (sgn * scaled)

/-- JS `parseInt` (radix 10): skip leading whitespace, optional sign, then a
maximal digit run; `none` models `NaN`. -/
def jsParseInt (s : String) : Option Int :=
  let l := s.toList.dropWhile (fun c => isWs c)
  let (sgn, l) :=
    match l with
    | '-' :: rest => ((-1 : Int), rest)
    | '+' :: rest => ((1 : Int), rest)
    | _ => ((1 : Int), l)
  let digits := l.takeWhile (fun c => isDigitChar c)
  if digits.isEmpty then none else some (sgn * (digitsToNat digits : Int))

/-- Days from the civil epoch 1970-01-01 for a proleptic-Gregorian date
(`m` is 1-based; standard era-based algorithm). -/
def daysFromCivil (y m d : Int) : Int :=
  let y := if m ≤ 2 then y - 1 else y
  let era := Int.fdiv (if 0 ≤ y then y else y - 399) 400
  let yoe := y - era * 400
  let mp := Int.emod (m + 9) 12
  let doy := Int.fdiv (153 * mp + 2) 5 + d - 1
  let doe := yoe * 365 + Int.fdiv yoe 4 - Int.fdiv yoe 100 + doy
  era * 146097 + doe - 719468

/-- JS `new Date(year, monthIndex, day).getTime()` (modelled in UTC):
the constructor maps years 0–99 to 1900–1999, normalises any month index by
rolling whole years, and normalises the day by adding day offsets. -/
def jsMakeDate (year monthIndex day : Int) : Int :=
  let year := if 0 ≤ year ∧ year ≤ 99 then 1900 + year else year
  let y := year + Int.fdiv monthIndex 12
  let m := Int.emod monthIndex 12
  (daysFromCivil y (m + 1) 1 + (day - 1)) * 86400000

/-- Stand-in for `Date.prototype.toISOString`: the algorithmic code only uses
the rendered string as a `Map` key, so any rendering function of the time
value is an adequate model. -/
def dateToISOString (ms : Int) : String := "T" ++ toString ms

/-- Stand-in for `Number.prototype.toFixed(2)` as used in `Map` keys: the
amount rounded to cents, rendered in an arbitrary injective way. -/
def toFixed2 (q : ℚ) : String := toString (round (q * 100) : Int)

/-- Runtime inputs of the TypeScript code that are not functions of the
parsed text: the wall-clock year `new Date().getFullYear()`, the wall-clock
string `new Date().toLocaleDateString()`, a fresh `Math.random`-based id, and
the engine-defined `new Date(string)` fallback date parser. -/
structure JSEnv where
  currentYear : Int
  nowLocale : String
  genId : String
  jsDateParse : String → Option Int

/-- Transaction direction, the TS union `'income' | 'expense'`. -/
inductive TxType
  | income
  | expense
deriving DecidableEq, Repr

/-- The `Transaction` interface of `simple-transaction-parser.ts` (the PDF
parser's interface is the same record without the two optional fields, which
it leaves absent). Dates are stored as epoch milliseconds. -/
structure Transaction where
  id : String
  date : Int
  description : String
  amount : ℚ
  category : String
  type : TxType
  source : String
  originalAmount : Option ℚ := none
  confidence : Option ℚ := none
deriving DecidableEq, Repr

/-- The `CategoryRule` interface of `transaction-categorizer.ts`. -/
structure CategoryRule where
  keywords : List String
  category : String
  priority : ℚ
  type : Option TxType
deriving DecidableEq, Repr

namespace TransactionCategorizer

/-- The static expense rule table of `TransactionCategorizer`. -/
def expenseRules : List CategoryRule := [
  { keywords := [
      "restaurant", "cafe", "coffee", "pizza", "burger", "taco", "sushi", "deli",
      "mcdonald", "burger king", "kfc", "subway", "chipotle", "panera", "starbucks",
      "dunkin", "dominos", "papa john", "taco bell", "wendy", "chick-fil-a",
      "olive garden", "applebee", "chili", "outback", "red lobster", "ihop",
      "denny", "food truck", "dining", "lunch", "dinner", "breakfast", "brunch",
      "takeout", "delivery", "uber eats", "doordash", "grubhub", "postmates",
      "bistro", "grill", "pub", "bar", "tavern", "bakery", "ice cream", "yogurt"],
    category := "Food & Dining", priority := 9, type := some .expense },
  { keywords := [
      "gas", "fuel", "gasoline", "shell", "exxon", "bp", "chevron", "mobil",
      "uber", "lyft", "taxi", "cab", "parking", "park", "metro", "bus", "train",
      "subway", "transit", "toll", "bridge", "rental car", "car rental",
      "hertz", "enterprise", "avis", "budget", "airline", "flight", "airport",
      "delta", "american airlines", "united", "southwest", "jetblue",
      "auto repair", "mechanic", "oil change", "tire", "car wash", "inspection"],
    category := "Transportation", priority := 9, type := some .expense },
  { keywords := [
      "amazon", "walmart", "target", "costco", "sam club", "bj wholesale",
      "grocery", "supermarket", "safeway", "kroger", "publix", "whole foods",
      "trader joe", "aldi", "food lion", "giant", "stop shop", "wegmans",
      "shopping", "store", "mall", "outlet", "department store", "retail",
      "macy", "nordstrom", "sears", "jcpenney", "kohl", "tj maxx", "marshall",
      "best buy", "home depot", "lowe", "menards", "ace hardware",
      "pharmacy", "cvs", "walgreens", "rite aid", "drugstore"],
    category := "Shopping", priority := 8, type := some .expense },
  { keywords := [
      "electric", "electricity", "power", "utility", "water", "sewer",
      "gas bill", "natural gas", "internet", "cable", "phone", "cell",
      "mobile", "verizon", "att", "t-mobile", "sprint", "comcast", "xfinity",
      "spectrum", "cox", "directv", "dish", "satellite", "broadband",
      "insurance", "auto insurance", "car insurance", "home insurance",
      "health insurance", "life insurance", "geico", "state farm",
      "allstate", "progressive", "usaa", "liberty mutual"],
    category := "Bills & Utilities", priority := 9, type := some .expense },
  { keywords := [
      "netflix", "hulu", "disney", "amazon prime", "spotify", "apple music",
      "youtube", "movie", "theater", "cinema", "amc", "regal", "concert",
      "ticketmaster", "stubhub", "game", "gaming", "steam", "playstation",
      "xbox", "nintendo", "entertainment", "music", "streaming", "subscription",
      "gym", "fitness", "planet fitness", "la fitness", "24 hour fitness",
      "ymca", "crossfit", "yoga", "pilates", "spa", "massage"],
    category := "Entertainment", priority := 7, type := some .expense },
  { keywords := [
      "doctor", "physician", "hospital", "clinic", "medical", "health",
      "dental", "dentist", "orthodontist", "vision", "optometrist",
      "prescription", "pharmacy", "medicine", "drug", "co-pay", "copay",
      "deductible", "lab", "x-ray", "mri", "ct scan", "surgery",
      "emergency room", "urgent care", "physical therapy", "chiropractor",
      "mental health", "therapy", "counseling", "psychiatrist"],
    category := "Healthcare", priority := 8, type := some .expense },
  { keywords := [
      "hotel", "motel", "resort", "inn", "lodge", "airbnb", "vrbo",
      "marriott", "hilton", "hyatt", "sheraton", "holiday inn",
      "travel", "vacation", "trip", "booking", "expedia", "kayak",
      "priceline", "orbitz", "travelocity", "cruise", "carnival",
      "royal caribbean", "norwegian", "disney cruise"],
    category := "Travel", priority := 7, type := some .expense },
  { keywords := [
      "school", "university", "college", "tuition", "education",
      "student loan", "books", "textbook", "supplies", "course",
      "class", "training", "certification", "workshop", "seminar",
      "online course", "udemy", "coursera", "masterclass"],
    category := "Education", priority := 7, type := some .expense },
  { keywords := [
      "haircut", "salon", "barber", "nail", "manicure", "pedicure",
      "beauty", "cosmetics", "makeup", "skincare", "personal care",
      "dry cleaning", "laundry", "tailor", "alteration"],
    category := "Personal Care", priority := 6, type := some .expense },
  { keywords := [
      "home improvement", "furniture", "appliance", "garden", "lawn",
      "landscaping", "hardware", "paint", "tools", "renovation",
      "repair", "maintenance", "cleaning", "pest control", "security",
      "rent", "mortgage", "property tax", "hoa", "homeowners association"],
    category := "Home & Garden", priority := 6, type := some .expense },
  { keywords := [
      "fee", "charge", "penalty", "fine", "atm", "overdraft", "nsf",
      "maintenance", "service charge", "late fee", "interest charge",
      "annual fee", "monthly fee", "transaction fee", "foreign transaction",
      "cash advance", "balance transfer", "wire fee", "stop payment"],
    category := "Fees & Charges", priority := 10, type := some .expense },
  { keywords := [
      "office", "supplies", "business", "conference", "meeting",
      "software", "subscription", "professional", "consulting",
      "accounting", "legal", "marketing", "advertising", "printing"],
    category := "Business", priority := 6, type := some .expense },
  { keywords := [
      "gift", "present", "donation", "charity", "nonprofit",
      "church", "religious", "contribution", "fundraiser",
      "wedding", "birthday", "anniversary", "holiday"],
    category := "Gifts & Donations", priority := 5, type := some .expense }]

/-- The static income rule table of `TransactionCategorizer`. -/
def incomeRules : List CategoryRule := [
  { keywords := [
      "salary", "payroll", "wage", "pay", "direct deposit", "dd",
      "employer", "work", "job", "income", "earnings", "compensation",
      "bonus", "commission", "overtime", "tips", "gratuity"],
    category := "Salary", priority := 10, type := some .income },
  { keywords := [
      "freelance", "contract", "consulting", "gig", "project",
      "client", "invoice", "payment", "professional services",
      "independent contractor", "1099", "self employed"],
    category := "Freelance", priority := 9, type := some .income },
  { keywords := [
      "dividend", "interest", "investment", "stock", "bond",
      "mutual fund", "etf", "capital gains", "portfolio",
      "brokerage", "trading", "crypto", "cryptocurrency",
      "bitcoin", "ethereum", "retirement", "401k", "ira"],
    category := "Investment Returns", priority := 8, type := some .income },
  { keywords := [
      "business income", "sales", "revenue", "customer payment",
      "business deposit", "merchant", "stripe", "paypal business",
      "square", "invoice payment", "business transfer"],
    category := "Business Income", priority := 7, type := some .income },
  { keywords := [
      "refund", "return", "credit", "reimbursement", "rebate",
      "cashback", "cash back", "reward", "points redemption",
      "adjustment", "reversal", "chargeback", "dispute resolution"],
    category := "Refunds", priority := 6, type := some .income },
  { keywords := [
      "rent", "rental", "tenant", "property income", "lease",
      "airbnb host", "vrbo host", "property management"],
    category := "Rental Income", priority := 6, type := some .income }]

/-- `TransactionCategorizer.calculateMatchScore`: 3 points per keyword that
matches as a whole (whitespace-separated) word, 1 point per keyword that only
matches as a substring. -/
def calculateMatchScore (description : String) (keywords : List String) : ℚ :=
  let words := jsSplitWs description
  keywords.foldl
    (fun score keyword =>
      if jsIncludes description keyword then
        if words.contains keyword then score + 3 else score + 1
      else score)
    0

/-- `TransactionCategorizer.categorizeTransaction`: highest
`score × priority` wins, first rule wins ties; no match falls back to
`"Other"` / `"Other Income"`. -/
def categorizeTransaction (description : String) (amount : ℚ)
    (type : Option TxType) : String :=
  let desc := jsTrim (jsToLower description)
  let transactionType := type.getD (if 0 < amount then .income else .expense)
  let rules := if transactionType = .income then incomeRules else expenseRules
  let bestMatch := rules.foldl
    (fun (best : Option (String × ℚ × ℚ)) rule =>
      let matchScore := calculateMatchScore desc rule.keywords
      if 0 < matchScore then
        let totalScore := matchScore * rule.priority
        match best with
        | none => some (rule.category, matchScore, rule.priority)
        | some (_, s, p) =>
          if s * p < totalScore then some (rule.category, matchScore, rule.priority)
          else best
      else best)
    none
  match bestMatch with
  | some (c, _, _) => c
  | none => if transactionType = .income then "Other Income" else "Other"

end TransactionCategorizer

namespace TransactionStore

/-- `TransactionStore.isCreditCardPayment`: keyword test for payments made to
the credit-card issuer. -/
def isCreditCardPayment (description : String) : Bool :=
  let lowerDesc := jsToLower description
  jsIncludes lowerDesc "payment from chk" ||
  jsIncludes lowerDesc "conf#" ||
  jsIncludes lowerDesc "chk 9192" ||
  jsIncludes lowerDesc "online payment" ||
  jsIncludes lowerDesc "autopay" ||
  jsIncludes lowerDesc "payment - thank you" ||
  jsIncludes lowerDesc "payment thank you" ||
  jsIncludes lowerDesc "electronic payment" ||
  jsIncludes lowerDesc "bill payment"

/-- `TransactionStore.isReturnOrRefund`: keyword test for money coming back
from merchants. -/
def isReturnOrRefund (description : String) : Bool :=
  let lowerDesc := jsToLower description
  jsIncludes lowerDesc "refund" ||
  jsIncludes lowerDesc "return" ||
  jsIncludes lowerDesc "credit memo" ||
  jsIncludes lowerDesc "credit adjustment" ||
  jsIncludes lowerDesc "cashback" ||
  jsIncludes lowerDesc "cash back" ||
  jsIncludes lowerDesc "reward" ||
  jsIncludes lowerDesc "rebate" ||
  jsIncludes lowerDesc "reversal" ||
  jsIncludes lowerDesc "void" ||
  jsIncludes lowerDesc "chargeback" ||
  jsIncludes lowerDesc "dispute credit" ||
  jsIncludes lowerDesc "promotional credit" ||
  jsIncludes lowerDesc "statement credit" ||
  jsIncludes lowerDesc "merchant credit" ||
  jsIncludes lowerDesc "store credit" ||
  jsIncludes lowerDesc "purchase return"

/-- The fields of `FinancialSummary` that are functions of the transaction
set alone. The remaining fields of `TransactionStore.getFinancialSummary`
(monthly, last-month, cycle and trend figures) are calendar-window
aggregations relative to the wall clock `new Date()` and are not referenced
by any claim, so they are omitted from the embedding. -/
structure FinancialTotals where
  totalIncome : ℚ
  totalExpenses : ℚ
  totalSpending : ℚ
  netIncome : ℚ
deriving DecidableEq, Repr

/-- The date-independent core of `TransactionStore.getFinancialSummary`:
`actualExpenses` excludes credit-card payments, `returns` are
return/refund-flagged income, `totalExpenses` is reported net of returns and
`totalSpending` gross. -/
def getFinancialSummary (transactions : List Transaction) : FinancialTotals :=
  let actualExpenses := transactions.filter
    (fun t => t.type = .expense ∧ ¬ isCreditCardPayment t.description)
  let returns := transactions.filter
    (fun t => t.type = .income ∧ isReturnOrRefund t.description)
  let otherIncome := transactions.filter
    (fun t => t.type = .income ∧ ¬ isReturnOrRefund t.description)
  let totalExpenses := (actualExpenses.map (fun t => t.amount)).sum
  let totalReturns := (returns.map (fun t => t.amount)).sum
  let totalIncome := (otherIncome.map (fun t => t.amount)).sum
  let totalSpending := totalExpenses + totalReturns
  { totalIncome := totalIncome
    totalExpenses := totalExpenses - totalReturns
    totalSpending := totalSpending
    netIncome := totalIncome - (totalExpenses - totalReturns) }

/-- Normalisation step of
`TransactionStore.calculateDescriptionSimilarity`: lower-case, strip
characters outside `[a-z0-9\s]`, collapse whitespace, trim. -/
def normalizeDescription (str : String) : String :=
  jsTrim (collapseWs (String.mk ((jsToLower str).toList.filter
    (fun c => ('a' ≤ c ∧ c ≤ 'z') ∨ ('0' ≤ c ∧ c ≤ '9') ∨ isWs c))))

/-- `TransactionStore.calculateDescriptionSimilarity`: 1.0 for identical
normalised strings, otherwise the number of significant (length > 2) words of
the first description that also occur in the second, divided by the number of
distinct significant words of both. -/
def calculateDescriptionSimilarity (desc1 desc2 : String) : ℚ :=
  let normalized1 := normalizeDescription desc1
  let normalized2 := normalizeDescription desc2
  if normalized1 = normalized2 then 1
  else
    let words1 := (normalized1.splitOn " ").filter (fun w => 2 < w.length)
    let words2 := (normalized2.splitOn " ").filter (fun w => 2 < w.length)
    if words1.length = 0 ∧ words2.length = 0 then 1
    else if words1.length = 0 ∨ words2.length = 0 then 0
    else
      let commonWords := words1.filter (fun word => words2.contains word)
      let totalWords := ((words1 ++ words2).dedup).length
      (commonWords.length : ℚ) / (totalWords : ℚ)

/-- `TransactionStore.isDuplicateTransaction`: a new transaction is a
duplicate of the stored list when some stored transaction is within one day,
within one cent, at least 0.8-similar in description, and of the same type
(the source tests the four conditions in this order with early exits). -/
def isDuplicateTransaction (stored : List Transaction)
    (newTransaction : Transaction) : Bool :=
  stored.any (fun existing =>
    if 86400000 < (existing.date - newTransaction.date).natAbs then false
    else if (1 : ℚ)/100 < |existing.amount - newTransaction.amount| then false
    else if calculateDescriptionSimilarity existing.description
        newTransaction.description < 8/10 then false
    else if existing.type ≠ newTransaction.type then false
    else true)

/-- `TransactionStore.addTransactions`: each incoming transaction is
re-categorised, checked against the stored list for duplicates, and the
surviving ones are appended. -/
def addTransactions (stored : List Transaction)
    (newTransactions : List Transaction) : List Transaction :=
  let validTransactions := newTransactions.foldl
    (fun valid transaction =>
      let transaction := { transaction with
        category := TransactionCategorizer.categorizeTransaction
          transaction.description transaction.amount (some transaction.type) }
      if isDuplicateTransaction stored transaction then valid
      else valid ++ [transaction])
    []
  stored ++ validTransactions

/-- Argument of `TransactionStore.addManualTransaction`, the TS type
`Omit<Transaction, 'id' | 'source'>`. -/
structure ManualTransactionInput where
  date : Int
  description : String
  amount : ℚ
  category : String
  type : TxType
  originalAmount : Option ℚ := none
  confidence : Option ℚ := none
deriving DecidableEq, Repr

/-- `TransactionStore.addManualTransaction`: a fresh id and
`source = 'manual'` are attached, the category is recomputed by the
categoriser, and the transaction is appended unconditionally (no duplicate or
amount validation). -/
def addManualTransaction (env : JSEnv) (stored : List Transaction)
    (transaction : ManualTransactionInput) : List Transaction :=
  let newTransaction : Transaction :=
    { id := env.genId
      date := transaction.date
      description := transaction.description
      amount := transaction.amount
      category := transaction.category
      type := transaction.type
      source := "manual"
      originalAmount := transaction.originalAmount
      confidence := transaction.confidence }
  let category := TransactionCategorizer.categorizeTransaction
    newTransaction.description newTransaction.amount (some newTransaction.type)
  stored ++ [{ newTransaction with category := category }]

/-- Argument of `TransactionStore.updateTransaction`, the TS type
`Partial<Transaction>` (absent fields are `none`). -/
structure TransactionUpdate where
  id : Option String := none
  date : Option Int := none
  description : Option String := none
  amount : Option ℚ := none
  category : Option String := none
  type : Option TxType := none
  source : Option String := none
  originalAmount : Option (Option ℚ) := none
  confidence : Option (Option ℚ) := none
deriving DecidableEq, Repr

/-- JS object spread `{ ...t, ...updates }` for a `Partial<Transaction>`. -/
def applyUpdate (t : Transaction) (updates : TransactionUpdate) : Transaction :=
  { id := updates.id.getD t.id
    date := updates.date.getD t.date
    description := updates.description.getD t.description
    amount := updates.amount.getD t.amount
    category := updates.category.getD t.category
    type := updates.type.getD t.type
    source := updates.source.getD t.source
    originalAmount := updates.originalAmount.getD t.originalAmount
    confidence := updates.confidence.getD t.confidence }

/-- `TransactionStore.updateTransaction`: the first transaction with the
given id is replaced by the merge of its fields with the updates; nothing
else happens (in particular no re-categorisation). -/
def updateTransaction (stored : List Transaction) (id : String)
    (updates : TransactionUpdate) : List Transaction :=
  match stored.findIdx? (fun t => t.id = id) with
  | none => stored
  | some index =>
    match stored.get? index with
    | none => stored
    | some t => stored.set index (applyUpdate t updates)

end TransactionStore

/-- Upper-case an ASCII letter (JS `toUpperCase` on the single characters the
cleaner touches). -/
def jsToUpperChar (c : Char) : Char :=
  if 'a' ≤ c ∧ c ≤ 'z' then Char.ofNat (c.toNat - 32) else c

/-- Consume exactly `k` leading digits, returning their value and the rest. -/
def digitsPre (l : List Char) (k : Nat) : Option (Nat × List Char) :=
  let pre := l.take k
  if pre.length = k ∧ pre.all (fun c => isDigitChar c) then
    some (digitsToNat pre, l.drop k)
  else none

/-- Match the regex `(\d{1,2})\/(\d{1,2})\/(\d{2,4})` at the head of the
list (greedy quantifiers with backtracking), returning (month, day, year)
capture values. -/
def trySlashDateAt (l : List Char) : Option (Nat × Nat × Nat) := Id.run do
  for k1 in [2, 1] do
    if let some (m, r1) := digitsPre l k1 then
      if let '/' :: r1 := r1 then
        for k2 in [2, 1] do
          if let some (d, r2) := digitsPre r1 k2 then
            if let '/' :: r2 := r2 then
              let ds := (r2.takeWhile (fun c => isDigitChar c)).take 4
              if 2 ≤ ds.length then
                return some (m, d, digitsToNat ds)
  return none

/-- First (leftmost) match of `(\d{1,2})\/(\d{1,2})\/(\d{2,4})` in the
string, as JS `String.prototype.match` finds it. -/
def findSlashDate : List Char → Option (Nat × Nat × Nat)
  | [] => none
  | c :: cs =>
    match trySlashDateAt (c :: cs) with
    | some r => some r
    | none => findSlashDate cs

/-- Match the regex `(\d{4})-(\d{1,2})-(\d{1,2})` at the head of the list,
returning (year, month, day). -/
def tryIsoDateAt (l : List Char) : Option (Nat × Nat × Nat) := Id.run do
  if let some (y, r) := digitsPre l 4 then
    if let '-' :: r := r then
      for k2 in [2, 1] do
        if let some (m, r2) := digitsPre r k2 then
          if let '-' :: r2 := r2 then
            for k3 in [2, 1] do
              if let some (d, _) := digitsPre r2 k3 then
                return some (y, m, d)
  return none

/-- First match of `(\d{4})-(\d{1,2})-(\d{1,2})` in the string. -/
def findIsoDate : List Char → Option (Nat × Nat × Nat)
  | [] => none
  | c :: cs =>
    match tryIsoDateAt (c :: cs) with
    | some r => some r
    | none => findIsoDate cs

/-- The three-letter month alternatives of the PDF parser's month-name date
regex, with their month numbers. -/
def monthAbbrevs : List (String × Nat) :=
  [("jan", 1), ("feb", 2), ("mar", 3), ("apr", 4), ("may", 5), ("jun", 6),
   ("jul", 7), ("aug", 8), ("sep", 9), ("oct", 10), ("nov", 11), ("dec", 12)]

/-- Match `(Jan|...|Dec)\s+(\d{1,2}),?\s+(\d{4})` (case-insensitive) at the
head of the list, returning (month, day, year). -/
def tryMonthNameDateAt (l : List Char) : Option (Nat × Nat × Nat) := Id.run do
  let lower3 := String.mk ((l.take 3).map jsToLowerChar)
  for (name, month) in monthAbbrevs do
    if lower3 = name ∧ (l.take 3).length = 3 then
      let r := l.drop 3
      let ws := r.takeWhile (fun c => isWs c)
      if 1 ≤ ws.length then
        let r := r.dropWhile (fun c => isWs c)
        for k in [2, 1] do
          if let some (d, r2) := digitsPre r k then
            let r2 := match r2 with
              | ',' :: rest => rest
              | _ => r2
            let ws2 := r2.takeWhile (fun c => isWs c)
            if 1 ≤ ws2.length then
              let r2 := r2.dropWhile (fun c => isWs c)
              if let some (y, _) := digitsPre r2 4 then
                return some (month, d, y)
  return none

/-- First match of the month-name date pattern in the string. -/
def findMonthNameDate : List Char → Option (Nat × Nat × Nat)
  | [] => none
  | c :: cs =>
    match tryMonthNameDateAt (c :: cs) with
    | some r => some r
    | none => findMonthNameDate cs

namespace SimpleTransactionParser

/-- `SimpleTransactionParser.parseDate`. The format list is tried in order:
`MM/DD/YYYY`-style first (two-digit years pivoted at 50 around the current
century), then `YYYY-MM-DD`; the third entry of the source's format list
(`DD/MM/YYYY`) can only match lines the first entry already matched, so it is
unreachable and not re-modelled. A date built from matched fields is always a
valid JS date, so the source's `isNaN` guard never fires; when no format
matches, the engine-defined `new Date(string)` fallback decides. -/
def parseDate (env : JSEnv) (dateStr : String) : Option Int :=
  match findSlashDate dateStr.toList with
  | some (month, day, year) =>
    let year : Int :=
      if (year : Int) < 100 then
        let century := Int.fdiv env.currentYear 100 * 100
        if 50 < (year : Int) then century - 100 + year else century + year
      else year
    some (jsMakeDate year ((month : Int) - 1) day)
  | none =>
    match findIsoDate dateStr.toList with
    | some (y, m, d) => some (jsMakeDate y ((m : Int) - 1) d)
    | none => env.jsDateParse dateStr

/-- Strip the anchored case-insensitive pattern `^KW\s+` from `s` (used for
the simple prefixes in `cleanDescription`). -/
def stripKeywordWs (kw : String) (s : String) : String :=
  let l := s.toList
  let k := kw.toList
  if (l.take k.length).map jsToLowerChar = k.map jsToLowerChar ∧
      headIsWs (l.drop k.length) then
    String.mk ((l.drop k.length).dropWhile (fun c => isWs c))
  else s

/-- Strip the anchored pattern `^CHECK\s+\d+\s+` (case-insensitive). -/
def stripCheckNumber (s : String) : String :=
  let l := s.toList
  if (l.take 5).map jsToLowerChar = "check".toList then
    let r := l.drop 5
    let ws1 := r.takeWhile (fun c => isWs c)
    let r1 := r.dropWhile (fun c => isWs c)
    let ds := r1.takeWhile (fun c => isDigitChar c)
    let r2 := r1.dropWhile (fun c => isDigitChar c)
    let ws2 := r2.takeWhile (fun c => isWs c)
    if 1 ≤ ws1.length ∧ 1 ≤ ds.length ∧ 1 ≤ ws2.length then
      String.mk (r2.dropWhile (fun c => isWs c))
    else s
  else s

/-- Strip the anchored pattern `^\d{2}\/\d{2}\s+`. -/
def stripDatePre (s : String) : String :=
  match s.toList with
  | a :: b :: '/' :: c :: d :: rest =>
    if isDigitChar a ∧ isDigitChar b ∧ isDigitChar c ∧ isDigitChar d ∧
        headIsWs rest then
      String.mk (rest.dropWhile (fun c => isWs c))
    else s
  | _ => s

/-- Strip the anchored pattern `^X+\s*` for a repeated punctuation char. -/
def stripRepeatChar (x : Char) (s : String) : String :=
  match s.toList with
  | c :: _ =>
    if c = x then
      String.mk ((s.toList.dropWhile (fun c => c = x)).dropWhile
        (fun c => isWs c))
    else s
  | [] => s

/-- Core of `replace(/\b\w/g, l => l.toUpperCase())`: upper-case every word
character that follows a non-word character. -/
def capitalizeWordsAux : Bool → List Char → List Char
  | _, [] => []
  | prevWord, c :: cs =>
    let c' := if isWordChar c ∧ ¬ prevWord then jsToUpperChar c else c
    c' :: capitalizeWordsAux (isWordChar c) cs

/-- `SimpleTransactionParser.cleanDescription`: whitespace normalisation,
ordered removal of non-informative prefixes, then lower-casing with each word
capitalised. -/
def cleanDescription (description : String) : String :=
  let description := jsTrim (collapseWs description)
  let description := stripKeywordWs "pos" description
  let description := stripKeywordWs "atm" description
  let description := stripKeywordWs "ach" description
  let description := stripCheckNumber description
  let description := stripKeywordWs "debit" description
  let description := stripKeywordWs "credit" description
  let description := stripKeywordWs "online" description
  let description := stripKeywordWs "recurring" description
  let description := stripDatePre description
  let description := stripRepeatChar '*' description
  let description := stripRepeatChar '-' description
  let description := String.mk (capitalizeWordsAux false
    (jsToLower description).toList)
  jsTrim description

/-- The keyword list of
`SimpleTransactionParser.isNonSpendingTransaction`. -/
def nonSpendingKeywords : List String :=
  ["payment received", "payment from", "direct deposit", "salary", "payroll",
   "refund", "cashback", "reward", "credit adjustment", "interest earned",
   "dividend",
   "transfer from", "balance transfer", "internal transfer",
   "statement credit", "adjustment credit", "fee waiver", "promotional credit",
   "total purchases", "total payments", "previous balance", "new balance",
   "minimum payment", "account summary"]

/-- `SimpleTransactionParser.isNonSpendingTransaction`. -/
def isNonSpendingTransaction (description : String) : Bool :=
  let lowerDesc := jsTrim (jsToLower description)
  nonSpendingKeywords.any (fun keyword => jsIncludes lowerDesc keyword)

/-- Strong income keyword list of `determineTransactionType`. -/
def strongIncomeKeywords : List String :=
  ["payment from", "deposit from", "transfer from", "refund from",
   "payment received", "direct deposit", "salary", "payroll", "wage", "bonus",
   "commission", "dividend", "interest earned", "cashback", "reward",
   "freelance payment", "contract payment", "invoice payment",
   "reimbursement"]

/-- Moderate income keyword list of `determineTransactionType`. -/
def moderateIncomeKeywords : List String :=
  ["refund", "return", "credit adjustment", "promotional credit",
   "statement credit", "fee waiver", "adjustment credit", "deposit", "credit"]

/-- Strong expense keyword list of `determineTransactionType`. -/
def strongExpenseKeywords : List String :=
  ["payment to", "transfer to", "payment for", "purchase at", "purchase from",
   "bill payment", "automatic payment", "online payment", "debit purchase",
   "pos purchase", "atm withdrawal", "check payment"]

/-- `SimpleTransactionParser.determineTransactionType`, the income/expense
classifier: strong keyword sets decide unconditionally; otherwise positive
amounts with moderate income keywords are income; negative amounts are
expenses unless the description mentions refund/cashback/return; everything
else defaults to expense. -/
def determineTransactionType (originalAmount : ℚ) (description : String) :
    TxType :=
  let lowerDesc := jsToLower description
  if strongIncomeKeywords.any (fun k => jsIncludes lowerDesc k) then .income
  else if strongExpenseKeywords.any (fun k => jsIncludes lowerDesc k) then
    .expense
  else if 0 < originalAmount ∧
      moderateIncomeKeywords.any (fun k => jsIncludes lowerDesc k) then
    .income
  else if originalAmount < 0 then
    if jsIncludes lowerDesc "refund" ∨ jsIncludes lowerDesc "cashback" ∨
        jsIncludes lowerDesc "return" then .income
    else .expense
  else .expense

/-- `SimpleTransactionParser.calculateConfidence`. -/
def calculateConfidence (description : String) (category : String) : ℚ :=
  let confidence : ℚ := 1/2
  let confidence := if 10 < description.length then confidence + 1/10
    else confidence
  let confidence := if 20 < description.length then confidence + 1/10
    else confidence
  let confidence := if category ≠ "Other" ∧ category ≠ "Other Income" then
    confidence + 2/10 else confidence
  let genericTerms := ["transaction", "payment", "purchase", "debit", "credit"]
  let confidence := if genericTerms.any
      (fun term => jsIncludes (jsToLower description) term) then
    confidence - 1/10 else confidence
  max (1/10) (min 1 confidence)

/-- `SimpleTransactionParser.createTransaction`: validates the date, the
amount (rejecting `NaN` and exactly-zero values) and the description, cleans
the description, filters non-spending artifacts, classifies the direction
and categorises, and stores `amount = |originalAmount|` with the signed
original amount preserved. -/
def createTransaction (env : JSEnv) (dateStr description amountStr : String) :
    Option Transaction :=
  let dateStr := jsTrim dateStr
  let description := jsTrim description
  let amountStr := jsTrim (String.mk (amountStr.toList.filter
    (fun c => ¬ (c = '$' ∨ c = ',' ∨ isWs c))))
  match parseDate env dateStr with
  | none => none
  | some date =>
    match jsParseFloat amountStr with
    | none => none
    | some originalAmount =>
      if originalAmount = 0 then none
      else if description.length < 3 then none
      else
        let description := cleanDescription description
        if isNonSpendingTransaction description then none
        else
          let transactionType := determineTransactionType originalAmount
            description
          let category := TransactionCategorizer.categorizeTransaction
            description |originalAmount| (some transactionType)
          some
            { id := env.genId
              date := date
              description := description
              amount := |originalAmount|
              category := category
              type := transactionType
              source := "upload"
              originalAmount := some originalAmount
              confidence := some (calculateConfidence description category) }

/-- The observable attributes of an uploaded `File`. -/
structure FileModel where
  name : String
  type : String
  size : Nat
  content : String
deriving DecidableEq, Repr

/-- `SimpleTransactionParser.parseFile`, parameterised by the three
per-format strategies (the class methods `parseCSV`, `parseText` and
`parsePDF`; the last wraps the external OCR process). The size guards run
before any strategy is consulted; a failure inside the `try` block is
re-thrown with the same message; an empty result set is converted into a
descriptive error. -/
def parseFileWith
    (parseCSV parseText parsePDF :
      FileModel → Except String (List Transaction))
    (file : FileModel) : Except String (List Transaction) :=
  let fileName := jsToLower file.name
  let fileType := file.type
  if 10 * 1024 * 1024 < file.size then
    .error "File size too large. Maximum 10MB allowed."
  else if file.size = 0 then
    .error "File is empty. Please upload a file with transaction data."
  else
    let result :=
      if fileName.endsWith ".csv" ∨ fileType = "text/csv" then parseCSV file
      else if fileName.endsWith ".txt" ∨ fileType = "text/plain" then
        parseText file
      else if fileName.endsWith ".pdf" ∨ fileType = "application/pdf" then
        parsePDF file
      else
        .error "Unsupported file type. Please upload CSV, TXT, or PDF files."
    match result with
    | .error e => .error e
    | .ok transactions =>
      if transactions.length = 0 then
        .error "No valid transactions found in the file. Please check the file format and content."
      else .ok transactions

end SimpleTransactionParser

namespace PDFTransactionParser

/-- The literal OCR-garble corrections looked up on the cleaned amount string
inside `PDFTransactionParser.createTransaction`. -/
def ocrCorrections : List (String × String) :=
  [("ail", "7.41"), ("bil", "8.11"), ("cil", "5.11"), ("dll", "9.11"),
   ("ell", "6.11"), ("lil", "1.11"), ("mil", "11.11"), ("nil", "0.11"),
   ("oil", "0.11"), ("pil", "7.11"), ("ril", "9.11"), ("sil", "5.11"),
   ("til", "1.11"), ("vil", "7.11"), ("wil", "11.11"), ("xil", "8.11"),
   ("yil", "9.11"), ("zil", "2.11")]

/-- Test for the regex `/\d+,\d{2}$/` on the string cleaned of `[$\s-]`
(European decimal style detection): the string must end in at least one
digit, a comma, and exactly two digits. -/
def looksEuropeanDecimal (s : String) : Bool :=
  match s.toList.reverse with
  | d2 :: d1 :: ',' :: d0 :: _ =>
    isDigitChar d2 && isDigitChar d1 && isDigitChar d0
  | _ => false

/-- Replace the first `,` of the string by `.` (JS
`replace(',', '.')` with a string pattern replaces one occurrence). -/
def replaceFirstComma : List Char → List Char
  | [] => []
  | ',' :: cs => '.' :: cs
  | c :: cs => c :: replaceFirstComma cs

/-- True when every character of the list is a digit and the length is
exactly `k`. -/
def allDigitsLen (l : List Char) (k : Nat) : Bool :=
  l.length = k && l.all (fun c => isDigitChar c)

/-- The string-cleaning prefix of the amount-parsing block of
`PDFTransactionParser.createTransaction`: strips a single leading `=`,
converts a European decimal comma, removes `[$,\s]`, applies the OCR garble
table, reconstructs missing decimal points by digit-count heuristics, and
detects (and strips) a leading ASCII or unicode dash. Returns the negativity
flag and the string handed to `parseFloat`. -/
def cleanAmountString (amountStr : String) : Bool × String :=
  let amountStr :=
    match amountStr.toList with
    | '=' :: rest => String.mk rest
    | _ => amountStr
  let amountStr :=
    if jsIncludes amountStr "," ∧ ¬ jsIncludes amountStr "." then
      if looksEuropeanDecimal (String.mk (amountStr.toList.filter
          (fun c => ¬ (c = '$' ∨ isWs c ∨ c = '-')))) then
        String.mk (replaceFirstComma amountStr.toList)
      else amountStr
    else amountStr
  let cleanAmountStr := String.mk (amountStr.toList.filter
    (fun c => ¬ (c = '$' ∨ c = ',' ∨ isWs c)))
  let cleanAmountStr :=
    match ocrCorrections.lookup cleanAmountStr with
    | some corrected => corrected
    | none => cleanAmountStr
  let l := cleanAmountStr.toList
  let cleanAmountStr :=
    if ¬ jsIncludes cleanAmountStr "." then
      if allDigitsLen l 4 ∧ 999 < digitsToNat l then
        String.mk (l.take 2 ++ '.' :: l.drop 2)
      else if allDigitsLen l 3 ∧ 100 ≤ digitsToNat l then
        String.mk (l.take 1 ++ '.' :: l.drop 1)
      else if allDigitsLen l 2 ∧ digitsToNat l < 100 then
        String.mk ('0' :: '.' :: l)
      else if allDigitsLen l 1 then
        String.mk (l ++ ['.', '0', '0'])
      else if 5 ≤ l.length ∧ l.all (fun c => isDigitChar c) then
        String.mk (l.take (l.length - 2) ++ '.' :: l.drop (l.length - 2))
      else cleanAmountStr
    else cleanAmountStr
  match cleanAmountStr.toList with
  | c :: rest =>
    if c = '-' ∨ c = Char.ofNat 8212 ∨ c = Char.ofNat 8211 ∨
        c = Char.ofNat 8722 then
      (true, String.mk rest)
    else (false, cleanAmountStr)
  | [] => (false, cleanAmountStr)

/-- The amount-parsing block of `PDFTransactionParser.createTransaction`:
clean the string (see `cleanAmountString`), parse it, reject `NaN` and
exactly-zero values, and apply the detected negative sign. -/
def parseAmount (amountStr : String) : Option ℚ :=
  let (isNegative, cleanAmountStr) := cleanAmountString amountStr
  match jsParseFloat cleanAmountStr with
  | none => none
  | some originalAmount =>
    if originalAmount = 0 then none
    else if isNegative then some (-originalAmount) else some originalAmount

/-- The strict payment keyword list of
`PDFTransactionParser.isPaymentTransaction`. -/
def strictPaymentKeywords : List String :=
  ["payments and other credits", "purchases and adjustments",
   "fees charged this period", "interest charged this period",
   "total minimum payment", "total payments and other credits",
   "total purchases and adjustments", "days in billing period",
   "average daily balance",
   "total credit limit", "available credit", "credit line increase",
   "minimum payment due", "current balance", "new balance",
   "previous balance", "payment due date", "late payment warning",
   "statement closing date", "billing cycle", "account summary",
   "customer service", "contact us",
   "for cash advance", "cash credit line", "portion of credit line",
   "year-to-date totals",
   "confirmation number", "reference number", "conf#", "ref#",
   "payment from chk", "payment - thank you", "payment thank you",
   "autopay payment", "online payment received", "check payment received",
   "electronic payment received", "bill payment received"]

/-- Test for an anchored pattern `^(kw1|...|kwn)\s`: one of the keywords at
the start of the string, immediately followed by whitespace. -/
def startsKeywordThenWs (s : String) (kws : List String) : Bool :=
  kws.any (fun kw =>
    kw.toList.isPrefixOf s.toList && headIsWs (s.toList.drop kw.length))

/-- `PDFTransactionParser.isPaymentTransaction`: filters descriptions that
are statement artifacts or payments to the card issuer rather than spending. -/
def isPaymentTransaction (description : String) : Bool :=
  let lowerDesc := jsTrim (jsToLower description)
  if lowerDesc.length < 3 ∨
      (let l := lowerDesc.toList
       let ds := l.takeWhile (fun c => isDigitChar c)
       1 ≤ ds.length ∧ (l.drop ds.length).all (fun c => isWs c)) ∨
      lowerDesc = "transaction" then
    true
  else if strictPaymentKeywords.any (fun keyword =>
      lowerDesc = keyword ∨ lowerDesc.startsWith (keyword ++ " ") ∨
      lowerDesc.endsWith (" " ++ keyword)) then
    true
  else if startsKeywordThenWs lowerDesc
      ["total", "subtotal", "balance", "amount"] then
    true
  else if startsKeywordThenWs (String.mk
      (lowerDesc.toList.dropWhile (fun c => isWs c)))
      ["date", "description", "amount", "transaction", "account"] then
    true
  else if 1 < (lowerDesc.toList.filter (fun c => c = '$')).length then
    true
  else false

/-- `PDFTransactionParser.parseDate`. Format order: `MM/DD/YYYY`-style
(two-digit years pivoted at 50), then `YYYY-MM-DD`, then month-name dates
(the source's third format, `DD/MM/YYYY`, only matches strings the first
already matched and is unreachable). Dates built from matched fields are
valid, so the `isNaN` guard never fires; otherwise the engine-defined
`new Date(string)` parse decides. -/
def parseDate (env : JSEnv) (dateStr : String) : Option Int :=
  match findSlashDate dateStr.toList with
  | some (month, day, year) =>
    let year : Int :=
      if (year : Int) < 100 then
        let century := Int.fdiv env.currentYear 100 * 100
        if 50 < (year : Int) then century - 100 + year else century + year
      else year
    some (jsMakeDate year ((month : Int) - 1) day)
  | none =>
    match findIsoDate dateStr.toList with
    | some (y, m, d) => some (jsMakeDate y ((m : Int) - 1) d)
    | none =>
      match findMonthNameDate dateStr.toList with
      | some (m, d, y) => some (jsMakeDate y ((m : Int) - 1) d)
      | none => env.jsDateParse dateStr

/-- The private `PDFTransactionParser.categorizeTransaction`, a fixed
keyword decision chain (distinct from the `TransactionCategorizer` engine). -/
def categorizeTransaction (description : String) (isIncome : Bool) : String :=
  let desc := jsToLower description
  let has := fun (k : String) => jsIncludes desc k
  if isIncome then
    if has "salary" ∨ has "payroll" ∨ has "wage" then "Salary"
    else if has "freelance" ∨ has "contract" then "Freelance"
    else if has "refund" ∨ has "return" then "Refunds"
    else if has "dividend" ∨ has "interest" ∨ has "investment" then
      "Investment Returns"
    else "Other Income"
  else
    if has "restaurant" ∨ has "food" ∨ has "cafe" ∨ has "pizza" ∨
        has "mcdonald" ∨ has "starbucks" ∨ has "dining" ∨ has "lunch" ∨
        has "dinner" ∨ has "burger" ∨ has "taco" then "Food & Dining"
    else if has "gas" ∨ has "fuel" ∨ has "uber" ∨ has "lyft" ∨ has "taxi" ∨
        has "parking" ∨ has "metro" ∨ has "bus" ∨ has "train" ∨
        has "shell" ∨ has "exxon" ∨ has "bp" then "Transportation"
    else if has "grocery" ∨ has "supermarket" ∨ has "walmart" ∨
        has "target" ∨ has "amazon" ∨ has "shopping" ∨ has "store" ∨
        has "costco" ∨ has "kroger" then "Shopping"
    else if has "electric" ∨ has "water" ∨ has "gas bill" ∨
        has "internet" ∨ has "phone" ∨ has "utility" ∨ has "cable" ∨
        has "cell" ∨ has "verizon" ∨ has "att" ∨ has "tmobile" then
      "Bills & Utilities"
    else if has "movie" ∨ has "netflix" ∨ has "spotify" ∨
        has "entertainment" ∨ has "game" ∨ has "music" ∨ has "theater" ∨
        has "concert" then "Entertainment"
    else if has "doctor" ∨ has "hospital" ∨ has "pharmacy" ∨
        has "medical" ∨ has "health" ∨ has "dental" ∨ has "cvs" ∨
        has "walgreens" then "Healthcare"
    else if has "hotel" ∨ has "flight" ∨ has "airbnb" ∨ has "travel" ∨
        has "vacation" ∨ has "airline" ∨ has "rental car" ∨ has "booking" then
      "Travel"
    else if has "school" ∨ has "university" ∨ has "education" ∨
        has "tuition" ∨ has "books" ∨ has "college" then "Education"
    else if has "fee" ∨ has "charge" ∨ has "penalty" ∨ has "atm" ∨
        has "overdraft" ∨ has "maintenance" then "Fees & Charges"
    else "Other"

/-- Search for keyword `kw` immediately followed by at least one `\s`
character (the regex `kw\s+` without anchors, case already folded by the
caller). -/
def kwThenWs (kw : List Char) : List Char → Bool
  | [] => false
  | c :: cs =>
    (kw.isPrefixOf (c :: cs) && headIsWs ((c :: cs).drop kw.length)) ||
    kwThenWs kw cs

/-- Search for `kw1\s+kw2` (case already folded by the caller). -/
def kwWsKw (kw1 kw2 : List Char) : List Char → Bool
  | [] => false
  | c :: cs =>
    (kw1.isPrefixOf (c :: cs) &&
      (let r := (c :: cs).drop kw1.length
       let ws := r.takeWhile (fun x => isWs x)
       decide (1 ≤ ws.length) && kw2.isPrefixOf (r.dropWhile (fun x => isWs x)))) ||
    kwWsKw kw1 kw2 cs

/-- Test for the end-anchored regex `\s+kw\s*$` (case already folded). -/
def endsWsKw (kw : List Char) (l : List Char) : Bool :=
  let core := (l.reverse.dropWhile (fun c => isWs c)).reverse
  let revKw := kw.reverse
  revKw.isPrefixOf core.reverse && headIsWs ((core.reverse).drop kw.length)

/-- `PDFTransactionParser.isReturnTransaction`: negative amounts, explicit
return/refund keywords, or return-shaped regex patterns mark a transaction as
a return/credit. -/
def isReturnTransaction (description : String) (amount : ℚ) : Bool :=
  let lowerDesc := jsToLower description
  if amount < 0 then true
  else
    let returnKeywords : List String :=
      ["refund", "return", "credit memo", "credit adjustment", "cashback",
       "cash back", "reward", "rebate", "adjustment credit", "reversal",
       "void", "chargeback", "dispute credit", "promotional credit",
       "statement credit", "merchant credit", "store credit",
       "purchase return"]
    if returnKeywords.any (fun keyword => jsIncludes lowerDesc keyword) then
      true
    else
      let l := lowerDesc.toList
      kwThenWs "return".toList l ∨ kwThenWs "refund".toList l ∨
      kwWsKw "credit".toList "memo".toList l ∨ kwThenWs "void".toList l ∨
      kwThenWs "reversal".toList l ∨
      kwWsKw "adjustment".toList "cr".toList l ∨
      endsWsKw "cr".toList l ∨ endsWsKw "credit".toList l

/-- `PDFTransactionParser.createTransaction`: parse and validate the amount
(see `parseAmount`), filter payment transactions unless `allowPayments`,
parse the date, validate the description, then classify by
`isReturnTransaction` and categorise; the stored amount is the absolute
value (this `Transaction` shape carries no `originalAmount`). -/
def createTransaction (env : JSEnv)
    (dateStr description amountStr : String)
    (allowPayments : Bool := false) : Option Transaction :=
  let dateStr := jsTrim dateStr
  let description := jsTrim description
  match parseAmount amountStr with
  | none => none
  | some originalAmount =>
    if ¬ allowPayments ∧ isPaymentTransaction description then none
    else
      match parseDate env dateStr with
      | none => none
      | some date =>
        if description.length < 2 then none
        else
          let isReturn := isReturnTransaction description originalAmount
          let transactionType : TxType :=
            if isReturn then .income else .expense
          let category := categorizeTransaction description isReturn
          some
            { id := env.genId
              date := date
              description := description
              amount := |originalAmount|
              category := category
              type := transactionType
              source := "upload" }

/-- The cleaned-description normalisation used for the dedup keys of
`PDFTransactionParser.removeDuplicates`. -/
def dedupCleanedDescription (t : Transaction) : String :=
  jsTrim (collapseWs (jsToLower t.description))

/-- The exact dedup key: ISO date, amount to two decimals, cleaned
description. -/
def exactKey (t : Transaction) : String :=
  dateToISOString t.date ++ "-" ++ toFixed2 t.amount ++ "-" ++
    dedupCleanedDescription t

/-- The fuzzy dedup key: ISO date and cleaned description (no amount). -/
def fuzzyKey (t : Transaction) : String :=
  dateToISOString t.date ++ "-" ++ dedupCleanedDescription t

/-- The loop of `PDFTransactionParser.removeDuplicates`; `seen` is the JS
`Map` (later `set`s shadow earlier ones, modelled by consing). -/
def removeDuplicatesGo (seen : List (String × Transaction)) :
    List Transaction → List Transaction
  | [] => []
  | transaction :: rest =>
    if (seen.lookup (exactKey transaction)).isSome then
      removeDuplicatesGo seen rest
    else
      match seen.lookup (fuzzyKey transaction) with
      | some fuzzyMatch =>
        if transaction.amount = fuzzyMatch.amount ∧
            transaction.description ≠ fuzzyMatch.description then
          removeDuplicatesGo seen rest
        else
          transaction :: removeDuplicatesGo
            ((exactKey transaction, transaction) :: seen) rest
      | none =>
        transaction :: removeDuplicatesGo
          ((exactKey transaction, transaction) :: seen) rest

/-- `PDFTransactionParser.removeDuplicates`: exact-key duplicates are
dropped; a fuzzy-key hit with equal amount but different description keeps
the existing transaction; everything else is kept and recorded under its
exact key. -/
def removeDuplicates (transactions : List Transaction) : List Transaction :=
  removeDuplicatesGo [] transactions

/-- One pass of a JS `String.prototype.replace(/…/g, …)`: scan left to
right; where `step` matches it yields the consumed length (≥ 1 for every
pattern used here) and the replacement, the scan resumes after the consumed
characters and replacements are not rescanned. The fuel is the list length,
enough because every step consumes at least one character. -/
def globalReplaceAux (step : List Char → Option (Nat × List Char)) :
    Nat → List Char → List Char
  | _, [] => []
  | 0, l => l
  | Nat.succ fuel, c :: cs =>
    match step (c :: cs) with
    | some (n, repl) => repl ++ globalReplaceAux step fuel (List.drop (n - 1) cs)
    | none => c :: globalReplaceAux step fuel cs

/-- JS `s.replace(/pattern/g, …)` for a matcher `step`. -/
def globalReplace (step : List Char → Option (Nat × List Char))
    (s : String) : String :=
  String.mk (globalReplaceAux step s.toList.length s.toList)

/-- Matcher for a literal pattern. -/
def litM (pat repl : String) : List Char → Option (Nat × List Char) :=
  fun l =>
    if pat.toList.isPrefixOf l then some (pat.toList.length, repl.toList)
    else none

/-- Matcher for patterns of the shape `A\s+B` with literal `A` and `B`. -/
def litWsLitM (a b repl : String) : List Char → Option (Nat × List Char) :=
  fun l =>
    if a.toList.isPrefixOf l then
      let r := l.drop a.toList.length
      let ws := r.takeWhile (fun c => isWs c)
      if 1 ≤ ws.length ∧ b.toList.isPrefixOf (r.dropWhile (fun c => isWs c))
      then some (a.toList.length + ws.length + b.toList.length, repl.toList)
      else none
    else none

/-- The character class `[o0]` of the OCR date corrections. -/
def isO0 (c : Char) : Bool := c = 'o' ∨ c = '0'

/-- Matcher for `[o0]7n[o0]`. -/
def mDateClass1 : List Char → Option (Nat × List Char)
  | a :: '7' :: 'n' :: b :: _ =>
    if isO0 a ∧ isO0 b then some (4, "07/10".toList) else none
  | _ => none

/-- Matcher for `o7n[o0]`. -/
def mDateClass2 : List Char → Option (Nat × List Char)
  | 'o' :: '7' :: 'n' :: b :: _ =>
    if isO0 b then some (4, "07/10".toList) else none
  | _ => none

/-- Matcher for `[o0]7\/[o0]7`. -/
def mDateClass3 : List Char → Option (Nat × List Char)
  | a :: '7' :: '/' :: b :: '7' :: _ =>
    if isO0 a ∧ isO0 b then some (5, "07/07".toList) else none
  | _ => none

/-- Matcher for `=([0-9])` with replacement `$1`. -/
def mDropEquals : List Char → Option (Nat × List Char)
  | '=' :: d :: _ => if isDigitChar d then some (2, [d]) else none
  | _ => none

/-- Matcher for `([0-9]),([0-9][0-9]\s*$)` with replacement `$1.$2`. -/
def mCommaCents : List Char → Option (Nat × List Char) :=
  fun l =>
    match l with
    | d0 :: ',' :: d1 :: d2 :: rest =>
      if isDigitChar d0 ∧ isDigitChar d1 ∧ isDigitChar d2 ∧
          rest.all (fun c => isWs c) then
        some (l.length, d0 :: '.' :: d1 :: d2 :: rest)
      else none
    | _ => none

/-- Matcher for `-([0-9]+)$` with replacement `' -$1'`. -/
def mSpaceBeforeNeg : List Char → Option (Nat × List Char)
  | '-' :: rest =>
    if 1 ≤ rest.length ∧ rest.all (fun c => isDigitChar c) then
      some (rest.length + 1, ' ' :: '-' :: rest)
    else none
  | _ => none

/-- Matcher for the decimal-reconstruction callback on
`([0-9]{1,3})([0-9]{2}\s*$)`: it fires on a terminal run of 3–5 digits
(followed only by whitespace); the callback only inserts the decimal point
when the whole matched text is at most 4 characters long. -/
def mTerminalCents : List Char → Option (Nat × List Char) :=
  fun l =>
    let ds := l.takeWhile (fun c => isDigitChar c)
    let rest := l.drop ds.length
    if 3 ≤ ds.length ∧ ds.length ≤ 5 ∧ rest.all (fun c => isWs c) then
      if l.length ≤ 4 then
        some (l.length,
          ds.take (ds.length - 2) ++ '.' :: ds.drop (ds.length - 2) ++ rest)
      else some (l.length, l)
    else none

/-- Matcher for a fixed end-anchored word such as `ail$`. -/
def mEndLit (pat repl : String) : List Char → Option (Nat × List Char) :=
  fun l => if l = pat.toList then some (l.length, repl.toList) else none

/-- Matcher for `([0-9]+)DD$` with replacement `$1.DD` for fixed cents
digits `d1 d2`: a terminal all-digit run of length ≥ 3 ending in the two
digits. -/
def mEndCents (d1 d2 : Char) : List Char → Option (Nat × List Char) :=
  fun l =>
    if 3 ≤ l.length ∧ l.all (fun c => isDigitChar c) ∧
        l.drop (l.length - 2) = [d1, d2] then
      some (l.length, l.take (l.length - 2) ++ '.' :: l.drop (l.length - 2))
    else none

/-- Matcher for the dash-variant class `[—–−]` replaced by `-`. -/
def mDashVariant : List Char → Option (Nat × List Char)
  | c :: _ =>
    if c = Char.ofNat 8212 ∨ c = Char.ofNat 8211 ∨ c = Char.ofNat 8722 then
      some (1, ['-'])
    else none
  | _ => none

/-- The literal `McDonald's` (built with an explicit apostrophe code
point). -/
def mcdPattern : String :=
  String.mk ['M', 'c', 'D', 'o', 'n', 'a', 'l', 'd', Char.ofNat 39, 's']

/-- `PDFTransactionParser.cleanOCRLine`: the ordered sequence of global
regex replacements the source applies to a Bank-of-America statement line
(date garble fixes, merchant fixes, amount fixes, dash unification,
whitespace normalisation). -/
def cleanOCRLine (line : String) : String :=
  let line := globalReplace mDateClass1 line
  let line := globalReplace mDateClass2 line
  let line := globalReplace (litM "o7ns" "07/18") line
  let line := globalReplace (litM "O77" "07/17") line
  let line := globalReplace (litWsLitM "om" "7/17" "07/17") line
  let line := globalReplace mDateClass3 line
  let line := globalReplace (litM "o7no" "07/10") line
  let line := globalReplace (litM "07106" "07/06") line
  let line := globalReplace (litWsLitM "om" "7/" "07/") line
  let line := globalReplace (litM "o7/22" "07/22") line
  let line := globalReplace (litWsLitM "o7ns" "O77" "07/18 07/17") line
  let line := globalReplace (litWsLitM "O77" "07/18" "07/17 07/18") line
  let line := globalReplace (litWsLitM "on" "07/" "07/") line
  let line := globalReplace (litWsLitM "omg" "07/" "07/") line
  let line := globalReplace (litM "IBI*FABLETICS.COM" "IBI*FABLETICS.COM") line
  let line := globalReplace (litM "WWW.PACSUN.COM" "WWW.PACSUN.COM") line
  let line := globalReplace (litM "AMAZON MKTPL*" "AMAZON MKTPLACE") line
  let line := globalReplace
    (litM "DCCCD College Online" "DCCCD COLLEGE ONLINE") line
  let line := globalReplace (litM mcdPattern "MCDONALDS") line
  let line := globalReplace mDropEquals line
  let line := globalReplace mCommaCents line
  let line := globalReplace mSpaceBeforeNeg line
  let line := globalReplace mTerminalCents line
  let line := globalReplace (mEndLit "ail" "7.41") line
  let line := globalReplace (mEndLit "bil" "8.11") line
  let line := globalReplace (mEndLit "cil" "5.11") line
  let line := globalReplace (mEndCents '3' '9') line
  let line := globalReplace (mEndCents '1' '1') line
  let line := globalReplace (mEndCents '2' '1') line
  let line := globalReplace (mEndCents '6' '3') line
  let line := globalReplace (mEndCents '8' '3') line
  let line := globalReplace (mEndCents '4' '7') line
  let line := globalReplace (mEndCents '1' '5') line
  let line := globalReplace (mEndCents '2' '9') line
  let line := globalReplace (mEndCents '5' '6') line
  let line := globalReplace (mEndCents '5' '9') line
  let line := globalReplace mDashVariant line
  jsTrim (collapseWs line)

/-- `isBankOfAmericaNonTransactionLine`'s document-id regex
`^[a-z0-9]{3,}-\d{2,}-\d{2,}`. -/
def docIdMatch (l : List Char) : Bool := Id.run do
  let isAlnum := fun (c : Char) => ('a' ≤ c ∧ c ≤ 'z') ∨ isDigitChar c
  for k in List.range (l.length + 1) do
    if 3 ≤ k ∧ (l.take k).length = k ∧ (l.take k).all isAlnum then
      if let '-' :: r := l.drop k then
        let d1 := r.takeWhile (fun c => isDigitChar c)
        if 2 ≤ d1.length then
          if let '-' :: r2 := r.drop d1.length then
            let d2 := r2.takeWhile (fun c => isDigitChar c)
            if 2 ≤ d2.length then
              return true
  return false

/-- `PDFTransactionParser.isBankOfAmericaNonTransactionLine`: the fixed
catalogue of section headers, summaries, addresses, boilerplate, APR and
rewards text, credit-line info, page numbers and document ids that the
Bank-of-America backup walk skips. -/
def isBankOfAmericaNonTransactionLine (line : String) : Bool :=
  let lowerLine := jsTrim (jsToLower line)
  let has := fun (k : String) => jsIncludes lowerLine k
  if (jsTrim line).length < 5 then true
  else if has "payments and other credits" ∨ has "purchases and adjustments" ∨
      has "interest charged" ∨ has "fees charged" then true
  else if lowerLine.startsWith "total " ∨ has "for this period" ∨
      has "year to date" ∨ has "average daily" ∨ has "billing cycle" then true
  else if (has "transaction" ∧ has "date") ∨ (has "posting" ∧ has "date") ∨
      (has "reference" ∧ has "number") ∨ (has "account" ∧ has "number") then
    true
  else if has "p.o. box" ∨ has "wilmington" ∨ has "dallas tx" ∨
      has "prosper tx" ∨ has "dahlia garden" ∨ has "customer service" ∨
      has "www." ∨ has "1.800." ∨ has "mail payment" ∨ has "billing inqui"
    then true
  else if has "visa signature" ∨ has "account#" ∨ has "june 23 - july 22" ∨
      has "may 23- june 22" ∨ has "new balance total" ∨
      has "payment due date" ∨ has "late payment warning" ∨
      has "minimum payment" then true
  else if has "copyright" ∨ has "bank of america corporation" ∨
      has "member fdic" ∨ has "equal housing" then true
  else if has "interest charge calculation" ∨
      has "annual percentage rate" ∨ has "promotional" ∨
      has "balance transfers" ∨ has "cash advances" ∨ has "variable rate" ∨
      has "%v " ∨ has "apr type definitions" ∨ has "type of annual" then true
  else if has "reward summary" ∨ has "cash back earned" ∨
      has "cash back redeemed" ∨ has "cash back available" ∨
      has "make the most of your" ∨ has "rewards program today" then true
  else if has "important messages" ∨ has "congratulations" ∨
      has "credit limit has been increased" ∨ has "partner rewards program" ∨
      has "shell gas discount" ∨ has "fuel rewards" ∨ has "security meter" ∨
      has "mobile banking" ∨ has "bofa.com" ∨ has "qrc feature" then true
  else if has "cash credit line" ∨ has "for cash" ∨
      has "portion of credit available" ∨ has "total credit line" ∨
      has "total credit available" then true
  else if has "page " ∨ docIdMatch lowerLine.toList ∨
      (7 ≤ lowerLine.length ∧ lowerLine.toList.all (fun c => isDigitChar c))
    then true
  else false

/-- The sign-character class `[-−—–=]` of the tabular amount patterns. -/
def isAmountSign (c : Char) : Bool :=
  c = '-' ∨ c = Char.ofNat 8722 ∨ c = Char.ofNat 8212 ∨
  c = Char.ofNat 8211 ∨ c = '='

/-- Split an optional leading sign character off a token (JS
`part.match(/^[-−—–=]/)` / `part.replace(/^[-−—–=]/, '')`). -/
def stripAmountSign (tok : String) : String × String :=
  match tok.toList with
  | c :: rest =>
    if isAmountSign c then (String.mk [c], String.mk rest) else ("", tok)
  | [] => ("", tok)

/-- Token test `^[-−—–=]?\d+[.,]\d{2}$`. -/
def decimalAmountTok (tok : String) : Bool :=
  let (_, numPart) := stripAmountSign tok
  let l := numPart.toList
  let ds := l.takeWhile (fun c => isDigitChar c)
  match l.drop ds.length with
  | s :: a :: b :: [] =>
    1 ≤ ds.length ∧ (s = '.' ∨ s = ',') ∧ isDigitChar a ∧ isDigitChar b
  | _ => false

/-- Token test `^[-−—–=]?\d{k}$` for `kmin ≤ k ≤ kmax`. -/
def intTok (kmin kmax : Nat) (tok : String) : Bool :=
  let (_, numPart) := stripAmountSign tok
  let l := numPart.toList
  kmin ≤ l.length ∧ l.length ≤ kmax ∧ l.all (fun c => isDigitChar c)

/-- Token test `^\d{2}\/[0-9]{2}$` (the tabular date pattern). -/
def dateTok (tok : String) : Bool :=
  match tok.toList with
  | [a, b, '/', c, d] =>
    isDigitChar a ∧ isDigitChar b ∧ isDigitChar c ∧ isDigitChar d
  | _ => false

/-- Token test `^\d{5}$` (corrupted date). -/
def corruptedDateTok (tok : String) : Bool :=
  allDigitsLen tok.toList 5

/-- Token test `^\d{4}$` (reference / account number). -/
def fourDigitTok (tok : String) : Bool :=
  allDigitsLen tok.toList 4

/-- Consume a `\d{2}\/\d{2}` date at the head of the list. -/
def takeDate5 (l : List Char) : Option (String × List Char) :=
  match l with
  | a :: b :: '/' :: c :: d :: rest =>
    if isDigitChar a ∧ isDigitChar b ∧ isDigitChar c ∧ isDigitChar d then
      some (String.mk [a, b, '/', c, d], rest)
    else none
  | _ => none

/-- Decompose `(.+?)\s+TOKEN\s*$`: strip trailing whitespace, split at the
last whitespace run; the first component is the (lazy) description capture,
the second the final token. When everything before the final run is empty
the lazy description takes the first character of the run itself (and the
run must then be at least two characters long). -/
def splitLastTok (l : List Char) : Option (String × String) :=
  let core := (l.reverse.dropWhile (fun c => isWs c)).reverse
  let revCore := core.reverse
  let tokRev := revCore.takeWhile (fun c => ¬ isWs c)
  let restRev := revCore.dropWhile (fun c => ¬ isWs c)
  if tokRev.isEmpty then none
  else
    let wsRun := restRev.takeWhile (fun c => isWs c)
    let beforeRev := restRev.dropWhile (fun c => isWs c)
    if wsRun.isEmpty then none
    else if beforeRev.isEmpty then
      if 2 ≤ wsRun.length then some (String.mk [wsRun.getLastD ' '], String.mk tokRev.reverse)
      else none
    else some (String.mk beforeRev.reverse, String.mk tokRev.reverse)

/-- Token test for the alternative-format amount `[-−$]?\d+\.\d{2}`
(matched against a whole token). -/
def altAmountTok (tok : String) : Bool :=
  let l := tok.toList
  let l := match l with
    | c :: rest =>
      if c = '-' ∨ c = Char.ofNat 8722 ∨ c = '$' then rest else l
    | [] => l
  let ds := l.takeWhile (fun c => isDigitChar c)
  match l.drop ds.length with
  | '.' :: a :: b :: [] => 1 ≤ ds.length ∧ isDigitChar a ∧ isDigitChar b
  | _ => false

/-- One iteration of the pattern loop of `parseAlternativeBOAFormat`: given
the captures of a matched pattern (`none` when the pattern did not match),
build the transaction and force the section's type/category on it. A
`none` from `createTransaction` yields `none` here, which the loop answers
by falling through to the next pattern. -/
def altAttempt (env : JSEnv) (sectionName : String)
    (cap : Option (String × String × String)) : Option Transaction :=
  match cap with
  | none => none
  | some (dateStr, description, amountStr) =>
    match createTransaction env dateStr description amountStr true with
    | none => none
    | some transaction =>
      if sectionName = "credits" then
        some { transaction with type := .income, category := "Refunds" }
      else some { transaction with type := .expense }

/-- `PDFTransactionParser.parseAlternativeBOAFormat`: three progressively
looser end-anchored patterns (two dates / one date / no date before a
description and decimal amount), tried in order; a produced transaction is
forced to `income`/`Refunds` in the credits section and to `expense`
otherwise, and the loop moves on to the next pattern both when a pattern
does not match and when `createTransaction` rejects its captures. -/
def parseAlternativeBOAFormat (env : JSEnv) (line : String)
    (sectionName : String) : Option Transaction :=
  let l := line.toList
  let try1 : Option (String × String × String) :=
    match takeDate5 l with
    | none => none
    | some (d1, r) =>
      let ws := r.takeWhile (fun c => isWs c)
      if ws.isEmpty then none
      else
        match takeDate5 (r.dropWhile (fun c => isWs c)) with
        | none => none
        | some (_, r2) =>
          let ws2 := r2.takeWhile (fun c => isWs c)
          if ws2.isEmpty then none
          else
            match splitLastTok (r2.dropWhile (fun c => isWs c)) with
            | some (desc, tok) =>
              if altAmountTok tok then some (d1 ++ "/2025", desc, tok)
              else none
            | none => none
  let try2 : Option (String × String × String) :=
    match takeDate5 l with
    | none => none
    | some (d1, r) =>
      let ws := r.takeWhile (fun c => isWs c)
      if ws.isEmpty then none
      else
        match splitLastTok (r.dropWhile (fun c => isWs c)) with
        | some (desc, tok) =>
          if altAmountTok tok then some (d1 ++ "/2025", desc, tok)
          else none
        | none => none
  let try3 : Option (String × String × String) :=
    match splitLastTok l with
    | some (desc, tok) =>
      if altAmountTok tok then some (env.nowLocale, desc, tok) else none
    | none => none
  match altAttempt env sectionName try1 with
  | some t => some t
  | none =>
    match altAttempt env sectionName try2 with
    | some t => some t
    | none => altAttempt env sectionName try3

/-- The descending search of `parseBankOfAmericaTabularLine` for the
right-most part that looks like an amount, with the OCR corrections and
decimal reconstructions the source applies to the found part. -/
def findAmountPart (parts : List String) (startIndex : Nat) :
    Option (Nat × String) := Id.run do
  for i in (List.range parts.length).reverse do
    if startIndex ≤ i then
      let part := parts.getD i ""
      if decimalAmountTok part then
        return some (i, part)
      else if part = "ail" then
        return some (i, "7.41")
      else if intTok 3 4 part ∧
          99 < digitsToNat (stripAmountSign part).2.toList then
        let (sign, numPart) := stripAmountSign part
        let n := numPart.toList
        let amount :=
          if n.length = 3 then
            sign ++ String.mk (n.take 1 ++ '.' :: n.drop 1)
          else if n.length = 4 then
            sign ++ String.mk (n.take 2 ++ '.' :: n.drop 2)
          else part
        return some (i, amount)
      else if intTok 1 2 part ∧
          digitsToNat (stripAmountSign part).2.toList < 100 then
        return some (i, part ++ ".00")
  return none

/-- `PDFTransactionParser.parseBankOfAmericaTabularLine`: skips
credit-card-payment lines up front, OCR-cleans the line, splits it on
whitespace, recognises the leading transaction/posting dates (with corrupted
variants), locates the amount from the right, carves out the description
(dropping trailing reference/account numbers), creates the transaction with
`allowPayments`, and finally forces the type/category from the statement
section, discarding bill payments found in the credits section. -/
def parseBankOfAmericaTabularLine (env : JSEnv) (line : String)
    (sectionName : String) : Option Transaction :=
  let trimmedLine := jsTrim line
  let lower := jsToLower trimmedLine
  if jsIncludes lower "payment from chk" ∨
      jsIncludes lower "online payment from" ∨
      jsIncludes lower "conf#" ∨
      (sectionName = "credits" ∧ (jsIncludes trimmedLine "367.09" ∨
        jsIncludes trimmedLine "940.83")) then
    none
  else
    let cleanedLine := cleanOCRLine trimmedLine
    let parts := jsSplitWs cleanedLine
    if parts.length < 4 then parseAlternativeBOAFormat env cleanedLine sectionName
    else
      let p0 := parts.getD 0 ""
      let p1 := parts.getD 1 ""
      let dateInfo : Option (String × Nat) :=
        if dateTok p0 ∧ dateTok p1 then
          some (p0, 2)
        else if corruptedDateTok p0 ∧ dateTok p1 then
          some (String.mk (p0.toList.take 2) ++ "/" ++
            String.mk ((p0.toList.drop 2).take 2), 2)
        else if ((jsToLower p0).startsWith "o" ∨ p0 = "on") ∧ dateTok p1 then
          let mm := (p1.splitOn "/").getD 0 ""
          let dd := (p1.splitOn "/").getD 1 ""
          some (mm ++ "/" ++ dd, 2)
        else if 2 < parts.length ∧ dateTok p1 then
          some (p1, 2)
        else none
      match dateInfo with
      | none => parseAlternativeBOAFormat env cleanedLine sectionName
      | some (transDate, startIndex) =>
        match findAmountPart parts startIndex with
        | none => parseAlternativeBOAFormat env cleanedLine sectionName
        | some (amountIndex, amount) =>
          let description :=
            if startIndex + 1 < amountIndex ∧
                fourDigitTok (parts.getD (amountIndex - 1) "") then
              if startIndex + 2 < amountIndex ∧
                  fourDigitTok (parts.getD (amountIndex - 2) "") then
                String.intercalate " "
                  ((parts.drop startIndex).take (amountIndex - 2 - startIndex))
              else
                String.intercalate " "
                  ((parts.drop startIndex).take (amountIndex - 1 - startIndex))
            else
              String.intercalate " "
                ((parts.drop startIndex).take (amountIndex - startIndex))
          if description.length < 3 then none
          else if amount = "" then none
          else
            let dateStr := transDate ++ "/2025"
            match createTransaction env dateStr description amount true with
            | none => none
            | some transaction =>
              if sectionName = "credits" then
                let desc := jsToLower description
                if jsIncludes desc "payment from chk" ∨
                    jsIncludes desc "online payment from" ∨
                    jsIncludes desc "conf#" then none
                else
                  some { transaction with
                    type := .income, category := "Refunds" }
              else some { transaction with type := .expense }

/-- A placeholder transaction used only to make list indexing total; every
index the section walk stores is in range. -/
def dummyTransaction : Transaction :=
  { id := "", date := 0, description := "", amount := 0, category := "",
    type := .expense, source := "" }

/-- State of the comprehensive pass of
`parseBankOfAmericaCreditCardSections`: the pool models the shared
(mutable) transaction objects of `allTransactions`, and `processed` holds
the indices of the pushed objects in push order (JS pushes references, so a
later mutation of a pooled object shows through in the processed list). -/
structure CompState where
  pool : List Transaction
  processed : List Nat
deriving DecidableEq, Repr

/-- The inner loop body of the comprehensive pass for one line and one
transaction index: on a line/description-prefix match the object's type and
category are overwritten according to the current section (skipping
payment-thank-you items in credits), and the index is pushed unless an
already-pushed object currently carries the same description, amount and
date. -/
def compInner (line : String) (sectionType : String)
    (st : CompState) (i : Nat) : CompState :=
  match st.pool.get? i with
  | none => st
  | some transaction =>
    if jsIncludes line (transaction.description.take 10) then
      if sectionType = "credits" ∧
          jsIncludes (jsToLower transaction.description) "payment" ∧
          jsIncludes (jsToLower transaction.description) "thank you" then
        st
      else
        let transaction :=
          if sectionType = "credits" then
            { transaction with type := .income, category := "Refunds" }
          else
            { transaction with type := .expense }
        let pool := st.pool.set i transaction
        let alreadyThere := st.processed.any (fun j =>
          match pool.get? j with
          | some t =>
            t.description = transaction.description ∧
            t.amount = transaction.amount ∧ t.date = transaction.date
          | none => false)
        if alreadyThere then { pool := pool, processed := st.processed }
        else { pool := pool, processed := st.processed ++ [i] }
    else st

/-- One line of the comprehensive pass: section headers switch the current
section, every other line is matched against all pooled transactions while a
section is active. -/
def compLine (acc : Option String × CompState) (line : String) :
    Option String × CompState :=
  let (currentSectionType, st) := acc
  let lowerLine := jsTrim (jsToLower line)
  if jsIncludes lowerLine "payments and other credits" then
    (some "credits", st)
  else if jsIncludes lowerLine "purchases and adjustments" then
    (some "expenses", st)
  else
    match currentSectionType with
    | some sectionType =>
      if 0 < st.pool.length then
        (currentSectionType,
          (List.range st.pool.length).foldl (compInner line sectionType) st)
      else (currentSectionType, st)
    | none => (currentSectionType, st)

/-- The comprehensive pass of `parseBankOfAmericaCreditCardSections`: walk
the lines with a section state, match the scan results to sections, and read
the pushed objects back out of the (mutated) pool. -/
def comprehensivePass (allTransactions : List Transaction)
    (lines : List String) : List Transaction :=
  let init : CompState := { pool := allTransactions, processed := [] }
  let (_, final) := lines.foldl compLine ((none : Option String), init)
  final.processed.map (fun i => (final.pool.get? i).getD dummyTransaction)

/-- The backup section walk of `parseBankOfAmericaCreditCardSections`:
re-walk the lines, skipping section headers, lines already covered by a
processed transaction's 10-character description prefix and obvious
non-transaction lines, and parse the rest as tabular lines. -/
def backupWalk (env : JSEnv) (processedTransactions : List Transaction)
    (lines : List String) : List Transaction :=
  (lines.foldl
    (fun (acc : Option String × List Transaction) line =>
      let (currentSection, out) := acc
      let lowerLine := jsTrim (jsToLower line)
      if jsIncludes lowerLine "payments and other credits" then
        (some "credits", out)
      else if jsIncludes lowerLine "purchases and adjustments" then
        (some "expenses", out)
      else
        match currentSection with
        | none => (currentSection, out)
        | some sectionName =>
          if processedTransactions.any
              (fun processed => jsIncludes line (processed.description.take 10))
            then (currentSection, out)
          else if isBankOfAmericaNonTransactionLine line then
            (currentSection, out)
          else
            match parseBankOfAmericaTabularLine env line sectionName with
            | some transaction => (currentSection, out ++ [transaction])
            | none => (currentSection, out))
    ((none : Option String), [])).2

/-- `PDFTransactionParser.parseBankOfAmericaCreditCardSections`.
`allTransactions` models the result of
`this.extractAllTransactionPatterns(lines.join('\n'))`: that scan feeds its
line through `cleanOCRText`, whose decimal-reconstruction stage consults
`Math.random()`, so its output is inherently an oracle of the run; the
section walk only reads the scanned transactions' description/amount/date
and overwrites their type and category, so it is embedded as a function of
that list. The comprehensive pass runs first, then the backup tabular walk
over the lines not already covered; the two result lists are concatenated. -/
def parseBankOfAmericaCreditCardSections (env : JSEnv)
    (allTransactions : List Transaction) (lines : List String) :
    List Transaction :=
  let processedTransactions := comprehensivePass allTransactions lines
  processedTransactions ++ backupWalk env processedTransactions lines

end PDFTransactionParser

/-!
Definitions written from the claims' wording (refinement comparisons), and
the concrete instances used by counterexamples and witnesses.
-/

/-- Modelled from claim C4's wording (not from the source): the description
similarity as the claim states it — "common words of length greater than 2
divided by the size of the union of such words, with identical normalized
strings scoring 1.0" — i.e. a Jaccard quotient of *sets* of significant
words (an empty union yields 0 under rational division-by-zero). The
source's `calculateDescriptionSimilarity` differs: it counts the first
description's significant words with multiplicity. -/
def claimDescriptionSimilarity (desc1 desc2 : String) : ℚ :=
  let n1 := TransactionStore.normalizeDescription desc1
  let n2 := TransactionStore.normalizeDescription desc2
  if n1 = n2 then 1
  else
    let words1 := ((n1.splitOn " ").filter (fun w => 2 < w.length)).dedup
    let words2 := ((n2.splitOn " ").filter (fun w => 2 < w.length)).dedup
    let common := words1.filter (fun w => words2.contains w)
    let union := (words1 ++ words2).dedup
    (common.length : ℚ) / (union.length : ℚ)

/-- Modelled from claim C4's wording: the duplicate test as the claim states
it — dates within one day, amounts within one cent, equal types, and the
claim's set-based similarity at least 0.80. -/
def claimIsDuplicate (stored : List Transaction) (t : Transaction) : Prop :=
  ∃ e ∈ stored,
    (e.date - t.date).natAbs ≤ 86400000 ∧
    |e.amount - t.amount| ≤ 1/100 ∧
    e.type = t.type ∧
    4/5 ≤ claimDescriptionSimilarity e.description t.description

/-- A fixed runtime environment for the concrete instances below. -/
def envX : JSEnv :=
  { currentYear := 2026, nowLocale := "10/11/2026", genId := "id0",
    jsDateParse := fun _ => none }

/-- Claim C1 witness data: an ordinary $5 expense. -/
def c1expense1 : Transaction :=
  { id := "a", date := 0, description := "Coffee Shop", amount := 5,
    category := "Other", type := .expense, source := "upload" }

/-- Claim C1 witness data: another ordinary $5 expense. -/
def c1expense2 : Transaction :=
  { id := "b", date := 0, description := "Book Shop", amount := 5,
    category := "Other", type := .expense, source := "upload" }

/-- Claim C1 witness data: a $3 refund income. -/
def c1refund : Transaction :=
  { id := "c", date := 0, description := "Amazon Refund", amount := 3,
    category := "Refunds", type := .income, source := "upload" }

/-- Claim C2 counterexample data: a transaction as produced by the
comprehensive pattern scan. -/
def boaScanTx : Transaction :=
  { id := "t0", date := 100, description := "FABLETICS STORE RETURN",
    amount := 28, category := "Other", type := .expense, source := "upload" }

/-- Claim C2 counterexample data: a credits section whose line matches the
scanned transaction's description prefix, followed by an expenses section
with another line matching the same prefix. -/
def boaLines : List String :=
  ["Payments and Other Credits",
   "06/03 06/04 FABLETICS STORE RETURN 4343 7230 -28.21",
   "Purchases and Adjustments",
   "06/10 06/11 FABLETICS STORE A 1111 2222 28.00"]

/-- Claim C2 witness data: a well-formed Bank-of-America tabular line. -/
def boaWitnessLine : String := "06/03 06/04 PACSUN STORE 4343 7230 28.21"

/-- Claim C2 witness data: the transaction the tabular parser produces from
`boaWitnessLine` in the credits section. -/
def boaWitnessTx : Transaction :=
  { id := "id0", date := 1748908800000, description := "PACSUN STORE",
    amount := 2821/100, category := "Refunds", type := .income,
    source := "upload" }

/-- Claim C4 counterexample data: a stored transaction whose description
repeats one significant word. -/
def c4stored : Transaction :=
  { id := "e", date := 0,
    description := "Netflix Netflix Netflix Netflix Paymnt", amount := 10,
    category := "Other", type := .expense, source := "upload" }

/-- Claim C4 counterexample data: an incoming transaction with the repeated
word as its only significant word, at the same date, amount and type. -/
def c4incoming : Transaction :=
  { id := "t", date := 0, description := "Netflix", amount := 10,
    category := "Other", type := .expense, source := "upload" }

/-- Claim C4 witness data: a stored transaction (its category is already the
categoriser's choice for it). -/
def c4storeA : Transaction :=
  { id := "s", date := 0, description := "Rent April", amount := 900,
    category := "Home & Garden", type := .expense, source := "manual" }

/-- Claim C4 witness data: a non-duplicate incoming transaction (category
already the categoriser's choice, so re-categorisation fixes it). -/
def c4newB : Transaction :=
  { id := "u", date := 0, description := "Starbucks Coffee", amount := 5,
    category := "Food & Dining", type := .expense, source := "upload" }

/-- Claim C6 counterexample data: a manual entry with a zero amount. -/
def c6input : TransactionStore.ManualTransactionInput :=
  { date := 0, description := "Zero Test", amount := 0, category := "Other",
    type := .expense }

/-- Claim C6 counterexample data: the transaction the store then holds. -/
def c6storedTx : Transaction :=
  { id := "id0", date := 0, description := "Zero Test", amount := 0,
    category := "Other", type := .expense, source := "manual" }

/-- Claim C6 witness data: the transaction the simple parser creates from
`("03/15/2024", "Starbucks Coffee", "-5.75")`. -/
def c6createdTx : Transaction :=
  { id := "id0", date := 1710460800000, description := "Starbucks Coffee",
    amount := 23/4, category := "Food & Dining", type := .expense,
    source := "upload", originalAmount := some (-(23/4)),
    confidence := some (4/5) }

/-- Claim C6 witness data: the transaction the PDF parser creates from
`("06/03/2025", "PACSUN STORE", "28.21")` with payments allowed. -/
def c6pdfTx : Transaction :=
  { id := "id0", date := 1748908800000, description := "PACSUN STORE",
    amount := 2821/100, category := "Shopping", type := .expense,
    source := "upload" }

/-- Claim C7 counterexample data: the stored transaction before the update. -/
def c7before : Transaction :=
  { id := "a", date := 0, description := "Old Shop", amount := 5,
    category := "Other", type := .expense, source := "manual" }

/-- Claim C7 counterexample data: the update sent by the edit form — a new
description together with an explicit category. -/
def c7update : TransactionStore.TransactionUpdate :=
  { description := some "Starbucks Coffee", category := some "Other" }

/-- Claim C7 counterexample data: the transaction the store holds after the
update. -/
def c7after : Transaction :=
  { id := "a", date := 0, description := "Starbucks Coffee", amount := 5,
    category := "Other", type := .expense, source := "manual" }

/-- Claim C9 witness data: an empty uploaded file. -/
def c9file : SimpleTransactionParser.FileModel :=
  { name := "statement.csv", type := "text/csv", size := 0, content := "" }

/-- Claim C10 witness data: a manual entry carrying a bogus category. -/
def c10input : TransactionStore.ManualTransactionInput :=
  { date := 0, description := "Starbucks Coffee", amount := 5,
    category := "Bogus", type := .expense }

/-- Claim C10 witness data: the transaction the store then holds. -/
def c10storedTx : Transaction :=
  { id := "id0", date := 0, description := "Starbucks Coffee", amount := 5,
    category := "Food & Dining", type := .expense, source := "manual" }

/-- Helper: a successfully parsed PDF amount is never zero (the parser
rejects exact zeros before applying the sign). -/
theorem parseAmount_ne_zero {s : String} {q : ℚ}
    (h : PDFTransactionParser.parseAmount s = some q) : q ≠ 0 := by
  unfold PDFTransactionParser.parseAmount at h
  rcases hc : PDFTransactionParser.cleanAmountString s with ⟨neg, str⟩
  rw [hc] at h
  dsimp only at h
  rcases hp : jsParseFloat str with _ | oa <;> rw [hp] at h <;> dsimp only at h
  · exact absurd h (by simp)
  · split_ifs at h with h0 h1 <;> simp at h
    · subst h
      exact neg_ne_zero.mpr h0
    · subst h
      exact h0

/-- Claim C8: the transaction-type classifier sends
`(-50, "Grocery Store")` to expense, `(200, "Direct Deposit Payroll")` to
income, and `(-30, "Merchant Refund")` to income — the refund keyword
overrides the negative-amount default. -/
theorem claim_C8 :
    SimpleTransactionParser.determineTransactionType (-50) "Grocery Store" =
      .expense ∧
    SimpleTransactionParser.determineTransactionType 200
      "Direct Deposit Payroll" = .income ∧
    SimpleTransactionParser.determineTransactionType (-30) "Merchant Refund" =
      .income := by
  refine ⟨?_, ?_, ?_⟩ <;> with_unfolding_all rfl

/-- Claim C9: calling `parseFile` on a 0-byte file fails with the error
message stating the file is empty, whatever the three per-format parsing
strategies would do — the guard runs before any of them is consulted. -/
theorem claim_C9
    (parseCSV parseText parsePDF :
      SimpleTransactionParser.FileModel → Except String (List Transaction))
    (file : SimpleTransactionParser.FileModel) (h : file.size = 0) :
    SimpleTransactionParser.parseFileWith parseCSV parseText parsePDF file =
      .error "File is empty. Please upload a file with transaction data." := by
  unfold SimpleTransactionParser.parseFileWith
  rw [h]
  norm_num

/-- Claim C9 witness: the 0-byte CSV file is rejected with the empty-file
message. -/
theorem claim_C9_witness :
    SimpleTransactionParser.parseFileWith (fun _ => .ok []) (fun _ => .ok [])
      (fun _ => .ok []) c9file =
      .error "File is empty. Please upload a file with transaction data." :=
  claim_C9 _ _ _ c9file rfl

/-- Claim C3: amount parsing maps `"$1,234.56"` to 1234.56, the bare
four-digit `"1234"` to 12.34, applies ASCII and unicode leading dashes as
negative signs, returns `none` for `NaN` and exact zero, and
`createTransaction` produces no transaction whenever the amount parse
fails. -/
theorem claim_C3 :
    PDFTransactionParser.parseAmount "$1,234.56" = some (123456/100) ∧
    PDFTransactionParser.parseAmount "1234" = some (1234/100) ∧
    PDFTransactionParser.parseAmount "-5.75" = some (-(575/100)) ∧
    PDFTransactionParser.parseAmount "−5.75" = some (-(575/100)) ∧
    PDFTransactionParser.parseAmount "abc" = none ∧
    PDFTransactionParser.parseAmount "0.00" = none ∧
    ∀ env dateStr description amountStr allowPayments,
      PDFTransactionParser.parseAmount amountStr = none →
      PDFTransactionParser.createTransaction env dateStr description amountStr
        allowPayments = none := by
  refine ⟨by with_unfolding_all rfl, by with_unfolding_all rfl,
    by with_unfolding_all rfl, by with_unfolding_all rfl,
    by with_unfolding_all rfl, by with_unfolding_all rfl, ?_⟩
  intro env dateStr description amountStr allowPayments h
  unfold PDFTransactionParser.createTransaction
  rw [h]

/-- Claim C3 witness: a non-numeric amount string parses to `none` and
yields no transaction. -/
theorem claim_C3_witness :
    PDFTransactionParser.parseAmount "abc" = none ∧
    PDFTransactionParser.createTransaction envX "06/03/2025" "PACSUN STORE"
      "abc" true = none :=
  ⟨by with_unfolding_all rfl,
   claim_C3.2.2.2.2.2.2 envX "06/03/2025" "PACSUN STORE" "abc" true
     (by with_unfolding_all rfl)⟩

/-- Claim C10: every transaction appended by `addManualTransaction` carries
the categoriser's category for its description, amount and type, and the
category the caller supplied is discarded — the result does not depend on
it at all. -/
theorem claim_C10 :
    (∀ env stored input t,
      t ∈ TransactionStore.addManualTransaction env stored input →
      t ∈ stored ∨
        t.category = TransactionCategorizer.categorizeTransaction
          t.description t.amount (some t.type)) ∧
    (∀ env stored (input : TransactionStore.ManualTransactionInput) c1 c2,
      TransactionStore.addManualTransaction env stored
        { input with category := c1 } =
      TransactionStore.addManualTransaction env stored
        { input with category := c2 }) := by
  constructor
  · intro env stored input t ht
    simp only [TransactionStore.addManualTransaction, List.mem_append,
      List.mem_singleton] at ht
    rcases ht with h | h
    · exact Or.inl h
    · subst h
      exact Or.inr rfl
  · intro env stored input c1 c2
    rfl

/-- Claim C10 witness: a manual entry carrying the category `"Bogus"` is
stored with the categoriser's `"Food & Dining"` instead. -/
theorem claim_C10_witness :
    c10storedTx.category = TransactionCategorizer.categorizeTransaction
      c10storedTx.description c10storedTx.amount (some c10storedTx.type) := by
  have hmem : c10storedTx ∈
      TransactionStore.addManualTransaction envX [] c10input := by
    rw [show TransactionStore.addManualTransaction envX [] c10input =
      [c10storedTx] from by with_unfolding_all rfl]
    exact List.mem_singleton.mpr rfl
  exact (claim_C10.1 envX [] c10input c10storedTx hmem).resolve_left
    (by simp)

/-- Claim C7 counterexample: updating a stored transaction's description to
`"Starbucks Coffee"` (with the form's category value `"Other"`) leaves the
stored category at `"Other"`, while the categoriser's result for the updated
description is `"Food & Dining"` — `updateTransaction` does not re-run
categorisation. -/
theorem claim_C7_counterexample :
    TransactionStore.updateTransaction [c7before] "a" c7update = [c7after] ∧
    c7after.category ≠ TransactionCategorizer.categorizeTransaction
      c7after.description c7after.amount (some c7after.type) := by
  constructor
  · with_unfolding_all rfl
  · have h2 : TransactionCategorizer.categorizeTransaction
        c7after.description c7after.amount (some c7after.type) =
        "Food & Dining" := by with_unfolding_all rfl
    rw [h2]
    decide

/-- Claim C7 (amended): `updateTransaction` replaces the first transaction
with the given id by the plain merge of its fields with the updates; the
resulting category is the supplied category when present and the previous
one otherwise — no categorisation is re-run. -/
theorem claim_C7_amended (stored : List Transaction) (id : String)
    (updates : TransactionStore.TransactionUpdate) (i : Nat)
    (t : Transaction)
    (hfind : stored.findIdx? (fun u => u.id = id) = some i)
    (hget : stored.get? i = some t) :
    TransactionStore.updateTransaction stored id updates =
      stored.set i (TransactionStore.applyUpdate t updates) ∧
    (TransactionStore.applyUpdate t updates).category =
      updates.category.getD t.category := by
  constructor
  · simp only [TransactionStore.updateTransaction, hfind, hget]
  · rfl

/-- Claim C7 witness: the counterexample update is exactly the merge, and
its category is the one supplied by the caller. -/
theorem claim_C7_witness :
    TransactionStore.updateTransaction [c7before] "a" c7update =
      [c7before].set 0 (TransactionStore.applyUpdate c7before c7update) ∧
    (TransactionStore.applyUpdate c7before c7update).category =
      c7update.category.getD c7before.category :=
  claim_C7_amended [c7before] "a" c7update 0 c7before
    (by with_unfolding_all rfl) rfl

/-- Claim C6 counterexample: `addManualTransaction` performs no amount
validation, so a manual entry with amount 0 is stored as-is and the store
then holds a transaction violating `amount > 0`. -/
theorem claim_C6_counterexample :
    TransactionStore.addManualTransaction envX [] c6input = [c6storedTx] ∧
    c6storedTx.amount = 0 :=
  ⟨by with_unfolding_all rfl, rfl⟩

/-- Claim C6 (amended): transactions created by the parsing pipeline do
satisfy the amount invariant — the simple parser stores
`amount = |originalAmount| > 0` (zero amounts rejected), and the PDF parser
stores a positive amount with no `originalAmount` — but `addManualTransaction`
applies no such validation (see the counterexample). -/
theorem claim_C6_amended :
    (∀ env dateStr description amountStr t,
      SimpleTransactionParser.createTransaction env dateStr description
        amountStr = some t →
      ∃ o, t.originalAmount = some o ∧ t.amount = |o| ∧ 0 < t.amount) ∧
    (∀ env dateStr description amountStr allowPayments t,
      PDFTransactionParser.createTransaction env dateStr description
        amountStr allowPayments = some t →
      t.originalAmount = none ∧ 0 < t.amount) := by
  constructor
  · intro env dateStr description amountStr t h
    unfold SimpleTransactionParser.createTransaction at h
    dsimp only at h
    split at h
    · exact absurd h (by simp)
    · split at h
      · exact absurd h (by simp)
      · split_ifs at h with h0 h1 h2
        simp only [Option.some.injEq] at h
        subst h
        exact ⟨_, rfl, rfl, abs_pos.mpr h0⟩
  · intro env dateStr description amountStr allowPayments t h
    unfold PDFTransactionParser.createTransaction at h
    dsimp only at h
    split at h
    · exact absurd h (by simp)
    · rename_i originalAmount hq
      split at h
      · exact absurd h (by simp)
      · split at h
        · exact absurd h (by simp)
        · split at h
          · exact absurd h (by simp)
          · simp only [Option.some.injEq] at h
            subst h
            exact ⟨rfl, abs_pos.mpr (parseAmount_ne_zero hq)⟩

/-- Claim C6 witness: a concrete simple-parser transaction and a concrete
PDF-parser transaction both satisfy the amount invariant. -/
theorem claim_C6_witness :
    (∃ o, c6createdTx.originalAmount = some o ∧ c6createdTx.amount = |o| ∧
      0 < c6createdTx.amount) ∧
    (c6pdfTx.originalAmount = none ∧ 0 < c6pdfTx.amount) :=
  ⟨claim_C6_amended.1 envX "03/15/2024" "Starbucks Coffee" "-5.75"
      c6createdTx (by with_unfolding_all rfl),
   claim_C6_amended.2 envX "06/03/2025" "PACSUN STORE" "28.21" true c6pdfTx
      (by with_unfolding_all rfl)⟩

/-- Claim C1: with expense transactions totalling $10 (none of them
credit-card payments) and a single $3 income transaction matching the
return/refund predicate, `getFinancialSummary` reports
`totalExpenses = 7` (net of returns) and `totalSpending = 13` (gross). -/
theorem claim_C1 (txs : List Transaction) (i : Transaction)
    (hcc : ∀ t ∈ txs, t.type = .expense →
      TransactionStore.isCreditCardPayment t.description = false)
    (hsum : ((txs.filter (fun t => t.type = .expense)).map
      (fun t => t.amount)).sum = 10)
    (hinc : txs.filter (fun t => t.type = .income) = [i])
    (hri : TransactionStore.isReturnOrRefund i.description = true)
    (hamt : i.amount = 3) :
    (TransactionStore.getFinancialSummary txs).totalExpenses = 7 ∧
    (TransactionStore.getFinancialSummary txs).totalSpending = 13 := by
  have hE : txs.filter
      (fun t => t.type = TxType.expense ∧
        ¬ TransactionStore.isCreditCardPayment t.description) =
      txs.filter (fun t => t.type = TxType.expense) := by
    refine List.filter_congr ?_
    intro t ht
    by_cases hty : t.type = TxType.expense
    · simp [hty, hcc t ht hty]
    · simp [hty]
  have hR : txs.filter
      (fun t => t.type = TxType.income ∧
        TransactionStore.isReturnOrRefund t.description) = [i] := by
    have h1 : txs.filter
        (fun t => t.type = TxType.income ∧
          TransactionStore.isReturnOrRefund t.description) =
        (txs.filter (fun t => t.type = TxType.income)).filter
          (fun t => TransactionStore.isReturnOrRefund t.description) := by
      rw [List.filter_filter]
      refine List.filter_congr ?_
      intro t ht
      simp [Bool.and_comm]
    rw [h1, hinc]
    simp [hri]
  unfold TransactionStore.getFinancialSummary
  dsimp only
  rw [hE, hR, hsum]
  refine ⟨?_, ?_⟩ <;> simp [hamt] <;> norm_num

/-- Claim C1 witness: two $5 expenses and a $3 refund income. -/
theorem claim_C1_witness :
    (TransactionStore.getFinancialSummary
      [c1expense1, c1expense2, c1refund]).totalExpenses = 7 ∧
    (TransactionStore.getFinancialSummary
      [c1expense1, c1expense2, c1refund]).totalSpending = 13 :=
  claim_C1 [c1expense1, c1expense2, c1refund] c1refund
    (by with_unfolding_all decide) (by with_unfolding_all rfl) (by with_unfolding_all rfl)
    (by with_unfolding_all rfl) rfl

/-- Claim C4 counterexample: for a stored description that repeats the word
"netflix" four times against a new description "Netflix" (same date, amount
and type), the store's duplicate test fires — its similarity counts common
words with multiplicity, giving 4/2 = 2 — while the claim's set-based
Jaccard similarity is 1/2 < 0.80, so the claim's "if and only if" fails. -/
theorem claim_C4_counterexample :
    TransactionStore.isDuplicateTransaction [c4stored] c4incoming = true ∧
    ¬ claimIsDuplicate [c4stored] c4incoming := by
  constructor
  · with_unfolding_all rfl
  · rintro ⟨e, he, -, -, -, hsim⟩
    rw [List.mem_singleton] at he
    subst he
    have hval : claimDescriptionSimilarity c4stored.description
        c4incoming.description = 1/2 := by with_unfolding_all rfl
    rw [hval] at hsim
    norm_num at hsim

/-- Helper: the early-exit condition chain of `isDuplicateTransaction` for
one stored transaction, as a conjunction. -/
theorem dupCheck_iff (e t : Transaction) :
    (if 86400000 < (e.date - t.date).natAbs then false
     else if (1 : ℚ)/100 < |e.amount - t.amount| then false
     else if TransactionStore.calculateDescriptionSimilarity e.description
         t.description < 8/10 then false
     else if e.type ≠ t.type then false else true) = true ↔
    ((e.date - t.date).natAbs ≤ 86400000 ∧
     |e.amount - t.amount| ≤ 1/100 ∧
     e.type = t.type ∧
     8/10 ≤ TransactionStore.calculateDescriptionSimilarity e.description
       t.description) := by
  split_ifs with h1 h2 h3 h4
  · simp only [false_iff]
    rintro ⟨a, -⟩
    omega
  · simp only [false_iff]
    rintro ⟨-, b, -⟩
    exact absurd b (not_le.mpr h2)
  · simp only [false_iff]
    rintro ⟨-, -, -, d⟩
    exact absurd d (not_le.mpr h3)
  · simp only [false_iff]
    rintro ⟨-, -, c, -⟩
    exact h4 c
  · simp only [true_iff]
    exact ⟨by omega, le_of_not_lt h2, not_not.mp h4, le_of_not_lt h3⟩

/-- Claim C4 (amended): the store-level duplicate test holds iff some stored
transaction is within one day, within one cent, of equal type, and at least
0.80-similar under the code's similarity — which counts the stored
description's significant words with multiplicity (and scores 1.0 when the
normalised strings are identical or neither side has significant words);
and a transaction judged duplicate is not added by `addTransactions`. -/
theorem claim_C4_amended :
    (∀ stored t, TransactionStore.isDuplicateTransaction stored t = true ↔
      ∃ e ∈ stored,
        (e.date - t.date).natAbs ≤ 86400000 ∧
        |e.amount - t.amount| ≤ 1/100 ∧
        e.type = t.type ∧
        8/10 ≤ TransactionStore.calculateDescriptionSimilarity e.description
          t.description) ∧
    (∀ stored newTxs u, u ∈ TransactionStore.addTransactions stored newTxs →
      u ∉ stored → TransactionStore.isDuplicateTransaction stored u = false) := by
  constructor
  · intro stored t
    unfold TransactionStore.isDuplicateTransaction
    rw [List.any_eq_true]
    exact exists_congr fun e => and_congr_right fun _ => dupCheck_iff e t
  · intro stored newTxs u hu hnot
    unfold TransactionStore.addTransactions at hu
    rw [List.mem_append] at hu
    rcases hu with h | h
    · exact absurd h hnot
    · revert h
      suffices haux : ∀ (l acc : List Transaction),
          (∀ v ∈ acc, TransactionStore.isDuplicateTransaction stored v = false) →
          ∀ w ∈ l.foldl
            (fun valid transaction =>
              let transaction := { transaction with
                category := TransactionCategorizer.categorizeTransaction
                  transaction.description transaction.amount
                  (some transaction.type) }
              if TransactionStore.isDuplicateTransaction stored transaction
                then valid
              else valid ++ [transaction]) acc,
          TransactionStore.isDuplicateTransaction stored w = false by
        intro h
        exact haux newTxs [] (by simp) u h
      intro l
      induction l with
      | nil =>
        intro acc hacc w hw
        exact hacc w hw
      | cons x xs ih =>
        intro acc hacc w hw
        simp only [List.foldl_cons] at hw
        refine ih _ ?_ w hw
        intro v hv
        split at hv
        · exact hacc v hv
        · rw [List.mem_append, List.mem_singleton] at hv
          rcases hv with hv | hv
          · exact hacc v hv
          · subst hv
            rename_i hd
            exact Bool.not_eq_true _ ▸ hd

/-- Claim C4 witness: a transaction that made it into the store through
`addTransactions` was judged non-duplicate. -/
theorem claim_C4_witness :
    TransactionStore.isDuplicateTransaction [c4storeA] c4newB = false := by
  have hmem : c4newB ∈ TransactionStore.addTransactions [c4storeA] [c4newB] := by
    rw [show TransactionStore.addTransactions [c4storeA] [c4newB] =
      [c4storeA, c4newB] from by with_unfolding_all rfl]
    simp
  have hnot : c4newB ∉ [c4storeA] := by
    intro hmem2
    rw [List.mem_singleton] at hmem2
    exact absurd (congrArg Transaction.id hmem2) (by decide)
  exact claim_C4_amended.2 [c4storeA] [c4newB] c4newB hmem hnot

/-- Helper: the one-step unfolding of the dedup loop. -/
theorem removeDuplicatesGo_cons (seen : List (String × Transaction))
    (t : Transaction) (rest : List Transaction) :
    PDFTransactionParser.removeDuplicatesGo seen (t :: rest) =
      if (seen.lookup (PDFTransactionParser.exactKey t)).isSome then PDFTransactionParser.removeDuplicatesGo seen rest
      else
        match seen.lookup (PDFTransactionParser.fuzzyKey t) with
        | some fuzzyMatch =>
          if t.amount = fuzzyMatch.amount ∧
              t.description ≠ fuzzyMatch.description then
            PDFTransactionParser.removeDuplicatesGo seen rest
          else t :: PDFTransactionParser.removeDuplicatesGo ((PDFTransactionParser.exactKey t, t) :: seen) rest
        | none => t :: PDFTransactionParser.removeDuplicatesGo ((PDFTransactionParser.exactKey t, t) :: seen) rest := rfl

/-- Helper: the dedup loop is idempotent from any starting map, because the
keep/skip decision for an element depends only on the map built from the
elements kept before it, which is identical in the second run. -/
theorem removeDuplicatesGo_idem (ts : List Transaction) :
    ∀ seen, PDFTransactionParser.removeDuplicatesGo seen (PDFTransactionParser.removeDuplicatesGo seen ts) =
      PDFTransactionParser.removeDuplicatesGo seen ts := by
  induction ts with
  | nil => intro seen; rfl
  | cons t rest ih =>
    intro seen
    cases h1 : (seen.lookup (PDFTransactionParser.exactKey t)).isSome with
    | true =>
      have hin : PDFTransactionParser.removeDuplicatesGo seen (t :: rest) =
          PDFTransactionParser.removeDuplicatesGo seen rest := by
        simp [removeDuplicatesGo_cons, h1]
      rw [hin]
      exact ih seen
    | false =>
      rcases hf : seen.lookup (PDFTransactionParser.fuzzyKey t) with _ | fm
      · have hin : PDFTransactionParser.removeDuplicatesGo seen (t :: rest) =
            t :: PDFTransactionParser.removeDuplicatesGo ((PDFTransactionParser.exactKey t, t) :: seen) rest := by
          simp [removeDuplicatesGo_cons, h1, hf]
        rw [hin, removeDuplicatesGo_cons]
        simp only [h1, hf, Bool.false_eq_true, if_false]
        rw [ih ((PDFTransactionParser.exactKey t, t) :: seen)]
      · by_cases h2 : t.amount = fm.amount ∧ t.description ≠ fm.description
        · have hin : PDFTransactionParser.removeDuplicatesGo seen (t :: rest) =
              PDFTransactionParser.removeDuplicatesGo seen rest := by
            simp [removeDuplicatesGo_cons, h1, hf, h2]
          rw [hin]
          exact ih seen
        · have hin : PDFTransactionParser.removeDuplicatesGo seen (t :: rest) =
              t :: PDFTransactionParser.removeDuplicatesGo ((PDFTransactionParser.exactKey t, t) :: seen) rest := by
            simp [removeDuplicatesGo_cons, h1, hf, h2]
          rw [hin, removeDuplicatesGo_cons]
          simp only [h1, hf, Bool.false_eq_true, if_false, if_neg h2]
          rw [ih ((PDFTransactionParser.exactKey t, t) :: seen)]

/-- Claim C5: the parse-time deduplication is idempotent — applying
`removeDuplicates` to its own output returns the same list. -/
theorem claim_C5 (transactions : List Transaction) :
    PDFTransactionParser.removeDuplicates
      (PDFTransactionParser.removeDuplicates transactions) =
      PDFTransactionParser.removeDuplicates transactions :=
  removeDuplicatesGo_idem transactions []

open PDFTransactionParser

/-- The production step of the comprehensive section pass forces the
section's type and category on the pooled object it pushes: whenever
`compInner` extends the processed index list with `i`, the object now at
index `i` of the pool is `income`/`"Refunds"` for the credits section and
`expense` for the expenses section. Later iterations may overwrite that
same pooled object again. -/
theorem compInner_push (line sectionType : String) (st : CompState) (i : Nat)
    (hp : (compInner line sectionType st i).processed = st.processed ++ [i]) :
    ∃ u, (compInner line sectionType st i).pool.get? i = some u ∧
      (sectionType = "credits" → u.type = .income ∧ u.category = "Refunds") ∧
      (sectionType = "expenses" → u.type = .expense) := by
  unfold compInner at hp ⊢
  split at hp
  · exact absurd hp (by simp)
  · rename_i transaction hg
    split
    · rename_i hpre
      split
      · rename_i hskip
        rw [if_pos hpre, if_pos hskip] at hp
        exact absurd hp (by simp)
      · rename_i hskip
        dsimp only
        rw [apply_ite CompState.pool]
        dsimp only
        rw [ite_self]
        obtain ⟨hlt, -⟩ := List.get?_eq_some.mp hg
        by_cases hsec : sectionType = "credits"
        · rw [if_pos hsec]
          refine ⟨_, List.get?_set_eq_of_lt _ hlt, fun _ => ⟨rfl, rfl⟩, ?_⟩
          intro he
          rw [hsec] at he
          exact absurd he (by decide)
        · rw [if_neg hsec]
          exact ⟨_, List.get?_set_eq_of_lt _ hlt,
            fun hc => absurd hc hsec, fun _ => rfl⟩
    · rename_i hpre
      rw [if_neg hpre] at hp
      exact absurd hp (by simp)

/-- A transaction built by one iteration of the pattern loop of the
alternative Bank-of-America format parser is forced to `income`/`"Refunds"`
in the credits section and to `expense` in every other section. -/
theorem altAttempt_force (env : JSEnv) (sectionName : String)
    (cap : Option (String × String × String)) (t : Transaction)
    (h : altAttempt env sectionName cap = some t) :
    (sectionName = "credits" → t.type = .income ∧ t.category = "Refunds") ∧
    (sectionName ≠ "credits" → t.type = .expense) := by
  unfold altAttempt at h
  split at h
  · exact absurd h (by simp)
  · split at h
    · exact absurd h (by simp)
    · split at h
      · rename_i hsec
        simp only [Option.some.injEq] at h
        subst h
        exact ⟨fun _ => ⟨rfl, rfl⟩, fun hc => absurd hsec hc⟩
      · rename_i hsec
        simp only [Option.some.injEq] at h
        subst h
        exact ⟨fun hc => absurd hc hsec, fun _ => rfl⟩

/-- A transaction returned by the alternative Bank-of-America format parser
is forced to `income`/`"Refunds"` in the credits section and to `expense`
in every other section, whichever of the three patterns produced it. -/
theorem alt_section_force (env : JSEnv) (line : String) (sectionName : String)
    (t : Transaction)
    (h : parseAlternativeBOAFormat env line sectionName = some t) :
    (sectionName = "credits" → t.type = .income ∧ t.category = "Refunds") ∧
    (sectionName ≠ "credits" → t.type = .expense) := by
  unfold parseAlternativeBOAFormat at h
  dsimp only at h
  split at h
  · rename_i t1 h1
    simp only [Option.some.injEq] at h
    subst h
    exact altAttempt_force env sectionName _ t1 h1
  · split at h
    · rename_i t2 h2
      simp only [Option.some.injEq] at h
      subst h
      exact altAttempt_force env sectionName _ t2 h2
    · exact altAttempt_force env sectionName _ t h

/-- The pattern loop of the alternative-format parser falls through: on
`"06/03 A 5.00"` the single-date pattern matches but `createTransaction`
rejects its one-character description, and the descriptionless third
pattern then produces the section-forced transaction — the parser does not
commit to the first matching pattern. -/
theorem alt_fallthrough_example :
    altAttempt envX "credits" (some ("06/03/2025", "A", "5.00")) = none ∧
    parseAlternativeBOAFormat envX "06/03 A 5.00" "credits" =
      some { id := "id0", date := 1791676800000,
             description := "06/03 A", amount := 5, category := "Refunds",
             type := .income, source := "upload" } :=
  ⟨by with_unfolding_all rfl, by with_unfolding_all rfl⟩

/-- A transaction returned by the tabular Bank-of-America line parser is
forced to `income`/`"Refunds"` in the credits section and to `expense` in
every other section, on each of its parse paths (four-part tabular, the
alternative-format fallbacks, and after the description carve-outs). -/
theorem tabular_section_force (env : JSEnv) (line : String)
    (sectionName : String) (t : Transaction)
    (h : parseBankOfAmericaTabularLine env line sectionName = some t) :
    (sectionName = "credits" → t.type = .income ∧ t.category = "Refunds") ∧
    (sectionName ≠ "credits" → t.type = .expense) := by
  unfold parseBankOfAmericaTabularLine at h
  dsimp only at h
  split at h
  · exact absurd h (by simp)
  · split at h
    · exact alt_section_force env _ _ t h
    · split at h
      · exact alt_section_force env _ _ t h
      · split at h
        · exact alt_section_force env _ _ t h
        · split at h
          · split at h
            · split at h
              · exact absurd h (by simp)
              · split at h
                · exact absurd h (by simp)
                · split at h
                  · exact absurd h (by simp)
                  · split at h
                    · rename_i hsec
                      split at h
                      · exact absurd h (by simp)
                      · simp only [Option.some.injEq] at h
                        subst h
                        exact ⟨fun _ => ⟨rfl, rfl⟩, fun hc => absurd hsec hc⟩
                    · rename_i hsec
                      simp only [Option.some.injEq] at h
                      subst h
                      exact ⟨fun hc => absurd hc hsec, fun _ => rfl⟩
            · split at h
              · exact absurd h (by simp)
              · split at h
                · exact absurd h (by simp)
                · split at h
                  · exact absurd h (by simp)
                  · split at h
                    · rename_i hsec
                      split at h
                      · exact absurd h (by simp)
                      · simp only [Option.some.injEq] at h
                        subst h
                        exact ⟨fun _ => ⟨rfl, rfl⟩, fun hc => absurd hsec hc⟩
                    · rename_i hsec
                      simp only [Option.some.injEq] at h
                      subst h
                      exact ⟨fun hc => absurd hc hsec, fun _ => rfl⟩
          · split at h
            · exact absurd h (by simp)
            · split at h
              · exact absurd h (by simp)
              · split at h
                · exact absurd h (by simp)
                · split at h
                  · rename_i hsec
                    split at h
                    · exact absurd h (by simp)
                    · simp only [Option.some.injEq] at h
                      subst h
                      exact ⟨fun _ => ⟨rfl, rfl⟩, fun hc => absurd hsec hc⟩
                  · rename_i hsec
                    simp only [Option.some.injEq] at h
                    subst h
                    exact ⟨fun hc => absurd hc hsec, fun _ => rfl⟩

/-- Claim C2 fails on the full section-aware path: `processedTransactions`
holds references into the shared pool, so a later expenses-section line
whose text contains the 10-character description prefix of an
already-pushed credits transaction mutates that object in place. On
`boaLines`, the scan transaction is produced in the credits section (with
only the first two lines the walk returns it as `income`/`"Refunds"`), yet
the full four-line input returns that same produced-in-credits transaction
with type `expense` (and category `"Refunds"`). -/
theorem claim_C2_counterexample :
    parseBankOfAmericaCreditCardSections envX [boaScanTx] (boaLines.take 2) =
      [{ boaScanTx with type := .income, category := "Refunds" }] ∧
    parseBankOfAmericaCreditCardSections envX [boaScanTx] boaLines =
      [{ boaScanTx with category := "Refunds" }] ∧
    ({ boaScanTx with category := "Refunds" } : Transaction).type = .expense :=
  ⟨by with_unfolding_all rfl, by with_unfolding_all rfl, rfl⟩

/-- Claim C2 (amended): the per-line production steps do force the section —
a transaction the tabular parser yields in the credits section has
type `income` and category `"Refunds"`; one yielded in the expenses section
has type `expense`; a line matching the credit-card-bill-payment pattern
yields no transaction in any section; and an object the comprehensive pass
pushes is, at push time, forced likewise. The original claim fails only
because the returned list aliases the shared pool, so a later section's
line can re-type an already-produced transaction (see the
counterexample). -/
theorem claim_C2_amended (env : JSEnv) (line : String) (t : Transaction) :
    (parseBankOfAmericaTabularLine env line "credits" = some t →
      t.type = .income ∧ t.category = "Refunds") ∧
    (parseBankOfAmericaTabularLine env line "expenses" = some t →
      t.type = .expense) ∧
    (jsIncludes (jsToLower (jsTrim line)) "payment from chk" ∨
        jsIncludes (jsToLower (jsTrim line)) "online payment from" ∨
        jsIncludes (jsToLower (jsTrim line)) "conf#" →
      ∀ sectionName, parseBankOfAmericaTabularLine env line sectionName = none) ∧
    (∀ sectionType st i,
      (compInner line sectionType st i).processed = st.processed ++ [i] →
      ∃ u, (compInner line sectionType st i).pool.get? i = some u ∧
        (sectionType = "credits" → u.type = .income ∧ u.category = "Refunds") ∧
        (sectionType = "expenses" → u.type = .expense)) := by
  refine ⟨fun h => (tabular_section_force env line "credits" t h).1 rfl,
    fun h => (tabular_section_force env line "expenses" t h).2 (by decide),
    ?_, fun sectionType st i hp => compInner_push line sectionType st i hp⟩
  intro hpay sectionName
  unfold parseBankOfAmericaTabularLine
  dsimp only
  rw [if_pos]
  rcases hpay with h | h | h
  · exact Or.inl h
  · exact Or.inr (Or.inl h)
  · exact Or.inr (Or.inr (Or.inl h))

/-- Claim C2 (amended) at a concrete input: the tabular parser maps
`boaWitnessLine` in the credits section to `boaWitnessTx`, which is indeed
`income`/`"Refunds"`. -/
theorem claim_C2_witness :
    boaWitnessTx.type = .income ∧ boaWitnessTx.category = "Refunds" :=
  (claim_C2_amended envX boaWitnessLine boaWitnessTx).1
    (by with_unfolding_all rfl)

end Spendbit


